import Mathlib

/-!
VideoPlayer: stream playback, retry state machine and overlay gestures.

A shallow embedding of the source effect of
`frontend/src/components/VideoPlayer.jsx` (the `useEffect` keyed on `src`,
its media-element handlers, the retry timer callback and the effect cleanup),
of its gesture listeners and overlay render, and of the overlay update of
`frontend/src/pages/LandingPage.jsx`.

React state and refs become fields of `Player`; every handler is a pure
function `Player → Player`.  Calls on the media element and on the hls.js
session that have no return value used by the component (`video.load()`,
`video.play()`, `hls.destroy()`, `setTimeout`) are recorded in the state, so
that a theorem can speak about whether they happened.
-/

namespace VideoPlayer

/-! ## Strings

A URI is a `String`; the three JavaScript tests are taken on its character
list.  Both patterns tested by the component are ASCII, so matching them
character by character agrees with JavaScript's matching on UTF-16 units. -/

/-- JavaScript `s.startsWith(p)` on the character sequence of a string. -/
def startsWith (s p : List Char) : Bool := p.isPrefixOf s

/-- JavaScript `s.endsWith(p)` on the character sequence of a string. -/
def endsWith (s p : List Char) : Bool := p.isSuffixOf s

/-- JavaScript `s.includes(p)`: `p` occurs at some position of `s`. -/
def includes : List Char → List Char → Bool
  | [], p => p.isPrefixOf []
  | c :: t, p => p.isPrefixOf (c :: t) || includes t p

/-- The literal `'.m3u8'` tested by `src.includes('.m3u8')`. -/
def m3u8 : List Char := ['.', 'm', '3', 'u', '8']

/-- The literal `'rtsp://'` tested by `src.startsWith('rtsp://')`. -/
def rtsp : List Char := ['r', 't', 's', 'p', ':', '/', '/']

/-- The test `src.includes('.m3u8')` (lines 49, 129, 140, 183). -/
def isM3u8 (src : String) : Bool := includes src.toList m3u8

/-- The test `src.startsWith('rtsp://')` (line 102). -/
def isRtsp (src : String) : Bool := startsWith src.toList rtsp

/-! ## Constants and messages -/

/-- The constant `maxRetries` (line 16). -/
def maxRetries : Nat := 5

/-- Message set by the `rtsp://` branch of the source effect (line 105). -/
def rtspMessage : String := "RTSP URLs must be converted to HLS first"

/-- Message set by `handleError` once the retries are used up (line 142). -/
def unavailableMessage : String :=
  "Stream unavailable. Please check if the RTSP conversion is running."

/-- Message set by `handleError` for a source that is not a manifest (line 144). -/
def loadFailedMessage : String := "Video failed to load. Please check the URL."

/-! ## Data model -/

/-- The three branches of the format dispatch of the source effect
(lines 49, 102, 108), named as the specification names them. -/
inductive SourceKind
  | AdaptiveManifest
  | UnsupportedProtocol
  | NativeFile
  deriving DecidableEq, Repr

/-- The format dispatch of the source effect: `if (src.includes('.m3u8'))`,
`else if (src.startsWith('rtsp://'))`, `else`. -/
def sourceKind (src : String) : SourceKind :=
  if isM3u8 src then SourceKind.AdaptiveManifest
  else if isRtsp src then SourceKind.UnsupportedProtocol
  else SourceKind.NativeFile

/-- A pending `setTimeout` callback of `handleError` (lines 134-139): its delay
in milliseconds and the `src` of the effect closure that scheduled it. -/
structure Timer where
  delay : Nat
  owner : String
  deriving DecidableEq, Repr

/-- What the browser offers for manifests: `video.canPlayType(...)` is truthy
(`nativeHls`), `window.Hls && window.Hls.isSupported()` (`hlsJs`). -/
structure Env where
  nativeHls : Bool
  hlsJs : Bool
  deriving DecidableEq, Repr

/-- The `data.type` of an hls.js error event, as the `switch` of line 82 sees it. -/
inductive HlsErrorType
  | network
  | media
  | other
  deriving DecidableEq, Repr

/-- State of the component and of the objects it drives.

* `src` is the current `src` prop;
* `videoLoaded`, `isPlaying`, `streamError`, `retryDisplay`, `videoDimensions`
  are the `useState` cells, `retryCount` is `retryCountRef.current`,
  `hls` is `hlsRef.current` (the manifest the session was given);
* `videoSrc` is `video.src`, `crossorigin` the attribute set at line 185,
  `listeners` the sources whose handler closures are subscribed on the element;
* `loadCalls`, `playCalls`, `hlsCreated`, `hlsDestroyed`, `hlsStartLoads`,
  `hlsRecoveries` count the calls of `video.load()`, `video.play()`,
  `new window.Hls(...)`, `hls.destroy()`, `hls.startLoad()` and
  `hls.recoverMediaError()`;
* `timers` are the pending `setTimeout` callbacks, oldest first. -/
structure Player where
  src : String
  videoLoaded : Bool
  isPlaying : Bool
  streamError : Option String
  retryCount : Nat
  retryDisplay : Nat
  videoDimensions : Nat × Nat
  hls : Option String
  videoSrc : Option String
  crossorigin : Bool
  listeners : List String
  loadCalls : Nat
  playCalls : Nat
  hlsCreated : Nat
  hlsDestroyed : Nat
  hlsStartLoads : Nat
  hlsRecoveries : Nat
  timers : List Timer
  deriving DecidableEq, Repr

/-- The component before any effect has run: the initial values of the
`useState` and `useRef` cells (lines 7-15) and an untouched media element. -/
def Player.initial : Player :=
  { src := "", videoLoaded := false, isPlaying := false, streamError := none,
    retryCount := 0, retryDisplay := 0, videoDimensions := (0, 0), hls := none,
    videoSrc := none, crossorigin := false, listeners := [], loadCalls := 0,
    playCalls := 0, hlsCreated := 0, hlsDestroyed := 0, hlsStartLoads := 0,
    hlsRecoveries := 0,
    timers := [] }

/-! ## Handlers -/

/-- Lines 43-46 and 201-204: `if (hlsRef.current) { destroy(); hlsRef.current = null }`. -/
def destroyHls (s : Player) : Player :=
  match s.hls with
  | some _ => { s with hls := none, hlsDestroyed := s.hlsDestroyed + 1 }
  | none => s

/-- Lines 173-180: the eight `addEventListener` calls of the closure of `src`. -/
def subscribe (src : String) (s : Player) : Player :=
  { s with listeners := s.listeners ++ [src] }

/-- `handleLoadedMetadata` (lines 114-122); `w`, `h` are `video.videoWidth`
and `video.videoHeight` at the time of the signal. -/
def handleLoadedMetadata (w h : Nat) (s : Player) : Player :=
  { s with videoDimensions := (w, h), videoLoaded := true, streamError := none,
           retryCount := 0, retryDisplay := 0 }

/-- `handleCanPlay` (lines 148-154). -/
def handleCanPlay (s : Player) : Player :=
  { s with videoLoaded := true, streamError := none, retryCount := 0, retryDisplay := 0 }

/-- `handleError` of the effect closure of `src` (lines 124-146). -/
def handleError (src : String) (s : Player) : Player :=
  let s := { s with videoLoaded := false }
  if isM3u8 src && decide (s.retryCount < maxRetries) then
    let s := { s with retryCount := s.retryCount + 1 }
    let s := { s with retryDisplay := s.retryCount }
    { s with timers := s.timers ++ [{ delay := 1000 * s.retryCount, owner := src }] }
  else if isM3u8 src then
    { s with streamError := some unavailableMessage }
  else
    { s with streamError := some loadFailedMessage }

/-- The body of the `setTimeout` callback (lines 135-138):
`if (video && retryCountRef.current <= maxRetries) video.load()`.
`video` is the element captured by the closure, which is never null there. -/
def timerCallback (s : Player) : Player :=
  if s.retryCount ≤ maxRetries then { s with loadCalls := s.loadCalls + 1 } else s

/-- The `i`-th pending timer fires: it leaves the pending list and its
callback runs.  No timer at `i`: nothing happens. -/
def fireTimer (i : Nat) (s : Player) : Player :=
  if i < s.timers.length then timerCallback { s with timers := s.timers.eraseIdx i } else s

/-- `handlePlay` and `handlePlaying` (lines 156, 167-170). -/
def handlePlay (s : Player) : Player := { s with isPlaying := true }

/-- `handlePause` (line 157). -/
def handlePause (s : Player) : Player := { s with isPlaying := false }

/-- The hls.js `MANIFEST_PARSED` handler (lines 73-77). -/
def hlsManifestParsed (s : Player) : Player :=
  { s with videoLoaded := true, playCalls := s.playCalls + 1 }

/-- The hls.js `ERROR` handler (lines 79-96). -/
def hlsError (fatal : Bool) (type : HlsErrorType) (details : String) (s : Player) : Player :=
  if fatal then
    match type with
    | HlsErrorType.network => { s with hlsStartLoads := s.hlsStartLoads + 1 }
    | HlsErrorType.media => { s with hlsRecoveries := s.hlsRecoveries + 1 }
    | HlsErrorType.other => { s with streamError := some ("HLS playback error: " ++ details) }
  else s

/-- The source effect body (lines 30-188) for the prop value `src`.
The `<video>` element is rendered unconditionally, so `videoRef.current` is
set whenever the effect runs and only the `!src` part of the guard of line 32
can hold: an empty `src` leaves everything as it is. -/
def sourceEffect (env : Env) (src : String) (s : Player) : Player :=
  if src = "" then s
  else
    let s := { s with videoLoaded := false, retryCount := 0, retryDisplay := 0,
                      streamError := none }
    let s := destroyHls s
    match sourceKind src with
    | SourceKind.AdaptiveManifest =>
        let s :=
          if env.nativeHls then { s with videoSrc := some src }
          else if env.hlsJs then { s with hls := some src, hlsCreated := s.hlsCreated + 1 }
          else { s with videoSrc := some src }
        let s := subscribe src s
        { s with crossorigin := true, loadCalls := s.loadCalls + 1 }
    | SourceKind.UnsupportedProtocol =>
        { s with streamError := some rtspMessage, videoLoaded := false }
    | SourceKind.NativeFile =>
        subscribe src { s with videoSrc := some src }

/-- The cleanup returned by the source effect of `src` (lines 189-205).  The
effect returns no cleanup when it left through the guard of line 32 or
through the `return` of the `rtsp://` branch (line 107). -/
def sourceCleanup (src : String) (s : Player) : Player :=
  if src = "" then s
  else
    match sourceKind src with
    | SourceKind.UnsupportedProtocol => s
    | _ => destroyHls { s with listeners := s.listeners.erase src }

/-- The `Retry Connection` button (lines 557-565), rendered for manifests
when an error is shown. -/
def retryClick (s : Player) : Player :=
  let s := { s with streamError := none, videoLoaded := false, retryCount := 0,
                    retryDisplay := 0 }
  { s with loadCalls := s.loadCalls + 1 }

/-! ## Events -/

/-- What can happen to a mounted player. -/
inductive Event
  | setSrc (src : String)
  | unmount
  | loadedmetadata (w h : Nat)
  | canplay
  | error
  | play
  | pause
  | loadstart
  | waiting
  | playing
  | timer (i : Nat)
  | manifestParsed
  | hlsFailure (fatal : Bool) (type : HlsErrorType) (details : String)
  | retry
  deriving DecidableEq, Repr

/-- A media-element signal reaches the handler of every subscribed closure. -/
def dispatch (h : String → Player → Player) (s : Player) : Player :=
  s.listeners.foldl (fun st src => h src st) s

/-- One event.  A changed `src` prop runs the cleanup of the previous effect
and then the effect of the new value (dependency list `[src]`, line 206); an
unchanged one runs nothing.  hls.js events exist only while a session does,
and the retry button only while it is rendered. -/
def step (env : Env) (e : Event) (s : Player) : Player :=
  match e with
  | Event.setSrc src =>
      if src = s.src then s
      else sourceEffect env src (sourceCleanup s.src { s with src := src })
  | Event.unmount => sourceCleanup s.src s
  | Event.loadedmetadata w h => dispatch (fun _ => handleLoadedMetadata w h) s
  | Event.canplay => dispatch (fun _ => handleCanPlay) s
  | Event.error => dispatch handleError s
  | Event.play => dispatch (fun _ => handlePlay) s
  | Event.pause => dispatch (fun _ => handlePause) s
  | Event.loadstart => s
  | Event.waiting => s
  | Event.playing => dispatch (fun _ => handlePlay) s
  | Event.timer i => fireTimer i s
  | Event.manifestParsed => if s.hls.isSome then hlsManifestParsed s else s
  | Event.hlsFailure fatal type details =>
      if s.hls.isSome then hlsError fatal type details s else s
  | Event.retry =>
      if s.streamError.isSome && isM3u8 s.src then retryClick s else s

/-- A sequence of events, first event first. -/
def run (env : Env) (evs : List Event) (s : Player) : Player :=
  evs.foldl (fun st e => step env e st) s

/-- Events that neither bind nor unbind a source, nor report readiness, nor
come from the hls.js session or the retry button. -/
def Event.quiet : Event → Bool
  | Event.error => true
  | Event.play => true
  | Event.pause => true
  | Event.loadstart => true
  | Event.waiting => true
  | Event.playing => true
  | Event.timer _ => true
  | _ => false

/-- Every event of the sequence is quiet. -/
def quietTrace (evs : List Event) : Bool := evs.all Event.quiet

/-- Number of media-element error signals in a sequence. -/
def errorCount (evs : List Event) : Nat := evs.count Event.error

/-- Events under which the bound source stays bound: every event but a change
of the `src` prop and the unmount. -/
def Event.keepsSource : Event → Bool
  | Event.setSrc _ => false
  | Event.unmount => false
  | _ => true

/-- Every event of the sequence keeps the source bound. -/
def boundTrace (evs : List Event) : Bool := evs.all Event.keepsSource

/-! ## JavaScript numbers

Positions, sizes and pointer movements are JavaScript numbers, that is
IEEE 754 doubles, and the listeners add them with `+`.  A finite double is
given here by its whole number of units of `2 ^ (-1074)`; `+` is the exact sum
rounded to 53 significant bits, to nearest, ties to even, with overflow to an
infinity.  The sign of a zero is not kept: it plays no part in `||`, in `+`
with a number that is not a zero, or in the JSON sent to the store. -/

/-- The number of units in 1: finite doubles are counted in units of `2 ^ (-1074)`,
the smallest positive double, of which every finite double is a whole multiple. -/
def unitsPerOne : Nat := 2 ^ 1074

/-- A JavaScript number: `NaN`, an infinity, or a finite double, given by its
whole number of units of `2 ^ (-1074)`.  The sign of zero is not kept. -/
inductive JsNum
  | nan
  | infinity (negative : Bool)
  | finite (units : Int)
  deriving DecidableEq, Repr

/-- The least `s`, from `s` on, with `a / 2 ^ s < 2 ^ 53`, searched for `fuel`
steps: the number of low bits of `a` that do not fit in 53 bits. -/
def dropBits : Nat → Nat → Nat → Nat
  | 0, _, s => s
  | fuel + 1, a, s => if a / 2 ^ s < 2 ^ 53 then s else dropBits fuel a (s + 1)

/-- Rounds a magnitude, in units, to 53 significant bits, to nearest, ties to
the even significand. -/
def roundMagnitude (a : Nat) : Nat :=
  let s := dropBits a a 0
  let q := a / 2 ^ s
  let r := a % 2 ^ s
  if 2 ^ s < 2 * r ∨ (2 * r = 2 ^ s ∧ q % 2 = 1) then (q + 1) * 2 ^ s else q * 2 ^ s

/-- The double nearest to an exact value given in units; a rounded magnitude of
`2 ^ 1024` or more (`2 ^ 2098` units) overflows to an infinity. -/
def roundDouble (u : Int) : JsNum :=
  if 2 ^ 2098 ≤ roundMagnitude u.natAbs then JsNum.infinity (decide (u < 0))
  else if u < 0 then JsNum.finite (-(roundMagnitude u.natAbs : Int))
  else JsNum.finite (roundMagnitude u.natAbs)

/-- JavaScript `a + b` on numbers. -/
def jsAdd : JsNum → JsNum → JsNum
  | JsNum.nan, _ => JsNum.nan
  | _, JsNum.nan => JsNum.nan
  | JsNum.infinity s, JsNum.infinity t => if s = t then JsNum.infinity s else JsNum.nan
  | JsNum.infinity s, JsNum.finite _ => JsNum.infinity s
  | JsNum.finite _, JsNum.infinity t => JsNum.infinity t
  | JsNum.finite a, JsNum.finite b => roundDouble (a + b)

/-- JavaScript `-a` on numbers. -/
def jsNeg : JsNum → JsNum
  | JsNum.nan => JsNum.nan
  | JsNum.infinity s => JsNum.infinity (!s)
  | JsNum.finite a => JsNum.finite (-a)

/-- The double a whole number denotes: the nearest one. -/
def JsNum.ofInt (n : Int) : JsNum := roundDouble (n * unitsPerOne)

instance (n : Nat) : OfNat JsNum n := ⟨JsNum.ofInt n⟩

instance : Add JsNum := ⟨jsAdd⟩

instance : Neg JsNum := ⟨jsNeg⟩

/-- A whole number in the range in which doubles hold every whole number. -/
def safeInteger (n : Int) : Bool := decide (n.natAbs ≤ 2 ^ 53)

/-- The running sums are whole numbers that doubles hold: starting from `acc`,
every number added and every sum reached is in the safe range. -/
def safeSteps : Int → List Int → Bool
  | _, [] => true
  | acc, d :: ds => safeInteger d && safeInteger (acc + d) && safeSteps (acc + d) ds

/-! ## Overlays and gestures

The interaction effect of `VideoPlayer.jsx` (lines 208-302) and the overlay
part of its render (lines 404-417).  Layout values are JavaScript numbers. -/

/-- A position `{ x, y }`. -/
structure Point where
  x : JsNum
  y : JsNum
  deriving DecidableEq, Repr

/-- A size `{ width, height }`. -/
structure Size where
  width : JsNum
  height : JsNum
  deriving DecidableEq, Repr

/-- The geometry of an overlay record as the player reads it: `_id`,
`position`, `size` and `zIndex`. -/
structure OverlayRecord where
  id : String
  position : Point
  size : Size
  zIndex : Int
  deriving DecidableEq, Repr

/-- The DOM element of a rendered overlay, as far as the gesture listeners
touch it: the attributes `data-overlay-id`, `data-x`, `data-y` (`none` while
the attribute is absent), `style.transform` (`none` for the empty string,
`some p` for `translate(p.x px, p.y px)`), `style.width` and `style.height`. -/
structure OverlayElement where
  overlayId : String
  dataX : Option JsNum
  dataY : Option JsNum
  transform : Option Point
  width : JsNum
  height : JsNum
  deriving DecidableEq, Repr

/-- The second argument of `onOverlayUpdate`, with the id it is called for:
the `position` and `size` keys of the partial, when present. -/
structure OverlayUpdate where
  id : String
  position : Option Point
  size : Option Size
  deriving DecidableEq, Repr

/-- What the listeners of one overlay work on: the `overlay` record of their
closure, the element, and the calls of `onOverlayUpdate` made so far, oldest
first. -/
structure Stage where
  overlay : OverlayRecord
  element : OverlayElement
  requests : List OverlayUpdate
  deriving DecidableEq, Repr

/-- A drag move event: `event.dx`, `event.dy`. -/
structure DragMove where
  dx : JsNum
  dy : JsNum
  deriving DecidableEq, Repr

/-- The rectangle `event.deltaRect` of a resize event: how far each edge moved. -/
structure DeltaRect where
  left : JsNum
  top : JsNum
  right : JsNum
  bottom : JsNum
  deriving DecidableEq, Repr

/-- A resize event: `event.deltaRect` and the `width` and `height` of `event.rect`. -/
structure ResizeEvent where
  deltaRect : DeltaRect
  rect : Size
  deriving DecidableEq, Repr

/-- The expression `parseFloat(target.getAttribute(...)) || 0`: an absent
attribute parses to `NaN`, and `NaN` and `0` are both replaced by `0`.  An
attribute that a listener wrote holds the text of a number, which
`parseFloat` reads back as the same number. -/
def readOffset (a : Option JsNum) : JsNum :=
  match a with
  | none => JsNum.finite 0
  | some v => if v = JsNum.nan ∨ v = JsNum.finite 0 then JsNum.finite 0 else v

/-- The offset read after a run of move events that found the offset `start`
and added the numbers `ds`, first one first: each event reads the offset with
`parseFloat(...) || 0`, adds its number and writes the sum back. -/
def accumulate (start : JsNum) (ds : List JsNum) : JsNum :=
  ds.foldl (fun acc d => readOffset (some (acc + d))) start

/-- The `move` listener of `draggable` (lines 219-227). -/
def dragMove (e : DragMove) (st : Stage) : Stage :=
  let x := readOffset st.element.dataX + e.dx
  let y := readOffset st.element.dataY + e.dy
  { st with element :=
      { st.element with transform := some { x := x, y := y }, dataX := some x,
                        dataY := some y } }

/-- The `end` listener of `draggable` (lines 228-247). -/
def dragEnd (st : Stage) : Stage :=
  let x := readOffset st.element.dataX
  let y := readOffset st.element.dataY
  let update : OverlayUpdate :=
    { id := st.element.overlayId,
      position := some { x := st.overlay.position.x + x, y := st.overlay.position.y + y },
      size := none }
  { st with requests := st.requests ++ [update],
            element := { st.element with transform := none, dataX := some 0,
                                         dataY := some 0 } }

/-- The `move` listener of `resizable` (lines 253-267). -/
def resizeMove (e : ResizeEvent) (st : Stage) : Stage :=
  let x := readOffset st.element.dataX + e.deltaRect.left
  let y := readOffset st.element.dataY + e.deltaRect.top
  { st with element :=
      { st.element with width := e.rect.width, height := e.rect.height,
                        transform := some { x := x, y := y }, dataX := some x,
                        dataY := some y } }

/-- The `end` listener of `resizable` (lines 268-289); `e` is the end event. -/
def resizeEnd (e : ResizeEvent) (st : Stage) : Stage :=
  let x := readOffset st.element.dataX
  let y := readOffset st.element.dataY
  let update : OverlayUpdate :=
    { id := st.element.overlayId,
      position := some { x := st.overlay.position.x + x, y := st.overlay.position.y + y },
      size := some { width := e.rect.width, height := e.rect.height } }
  { st with requests := st.requests ++ [update],
            element := { st.element with transform := none, dataX := some 0,
                                         dataY := some 0 } }

/-- The move events of a drag gesture, first event first. -/
def dragMoves (moves : List DragMove) (st : Stage) : Stage :=
  moves.foldl (fun s m => dragMove m s) st

/-- A whole drag gesture: its move events, then its end. -/
def dragGesture (moves : List DragMove) (st : Stage) : Stage :=
  dragEnd (dragMoves moves st)

/-- The move events of a resize gesture, first event first. -/
def resizeMoves (moves : List ResizeEvent) (st : Stage) : Stage :=
  moves.foldl (fun s m => resizeMove m s) st

/-- A whole resize gesture: its move events, then its end event. -/
def resizeGesture (moves : List ResizeEvent) (last : ResizeEvent) (st : Stage) : Stage :=
  resizeEnd last (resizeMoves moves st)

/-- A gesture of either kind. -/
inductive Gesture
  | drag (moves : List DragMove)
  | resize (moves : List ResizeEvent) (last : ResizeEvent)
  deriving DecidableEq, Repr

/-- Runs a gesture of either kind. -/
def Gesture.run : Gesture → Stage → Stage
  | Gesture.drag moves, st => dragGesture moves st
  | Gesture.resize moves last, st => resizeGesture moves last st

/-- The sum of what a gesture's move events add to `data-x` and `data-y`,
taken from a zero offset in the order of the events: `dx`, `dy` for a drag,
`deltaRect.left`, `deltaRect.top` for a resize. -/
def Gesture.offset : Gesture → Point
  | Gesture.drag moves =>
      { x := accumulate (JsNum.finite 0) (moves.map DragMove.dx),
        y := accumulate (JsNum.finite 0) (moves.map DragMove.dy) }
  | Gesture.resize moves _ =>
      { x := accumulate (JsNum.finite 0) (moves.map (fun m => m.deltaRect.left)),
        y := accumulate (JsNum.finite 0) (moves.map (fun m => m.deltaRect.top)) }

/-- The element a record is rendered as (lines 405-417), before any gesture:
no `data-x`, no `data-y`, no transform. -/
def renderElement (r : OverlayRecord) : OverlayElement :=
  { overlayId := r.id, dataX := none, dataY := none, transform := none,
    width := r.size.width, height := r.size.height }

/-- The listeners of a freshly rendered overlay, with no request made yet. -/
def Stage.fresh (r : OverlayRecord) : Stage :=
  { overlay := r, element := renderElement r, requests := [] }

/-- The rendered `zIndex` of an overlay (line 415): `overlay.zIndex || 10`,
where `0` is the falsy number. -/
def renderedZIndex (r : OverlayRecord) : Int :=
  if r.zIndex = 0 then 10 else r.zIndex

/-- The gate of the overlay render (line 404): `videoLoaded && overlays.map(...)`. -/
def overlaysRendered (s : Player) : Bool := s.videoLoaded

/-- The gate of the interaction effect (line 209): `if (!videoLoaded) return`. -/
def gesturesAttached (s : Player) : Bool := s.videoLoaded

/-- A source change followed by nothing else: the cleanup of the effect of
the current source and a fresh run of the effect for the same source. -/
def rebind (env : Env) (s : Player) : Player :=
  sourceEffect env s.src (sourceCleanup s.src s)

/-- The number of hls.js sessions that are alive: `hlsRef.current` holds one or none. -/
def aliveSessions (s : Player) : Nat := if s.hls.isSome then 1 else 0

/-- A sequence of events in which the browser may change between events
(hls.js is loaded by an asynchronous script, lines 19-27), first event first. -/
def runIn (evs : List (Env × Event)) (s : Player) : Player :=
  evs.foldl (fun st p => step p.1 p.2 st) s

/-- The binding discipline of the source effect: the subscribed closures are
none or the one of the current source, which then has a cleanup; a session is
alive only for such a source; every session but a living one was destroyed. -/
def wellBound (s : Player) : Prop :=
  (s.listeners = [] ∨
    (s.listeners = [s.src] ∧ s.src ≠ "" ∧
      sourceKind s.src ≠ SourceKind.UnsupportedProtocol)) ∧
  (s.hls.isSome = true →
    s.src ≠ "" ∧ sourceKind s.src ≠ SourceKind.UnsupportedProtocol) ∧
  s.hlsCreated = s.hlsDestroyed + aliveSessions s

/-- The second state has the binding of the first: same `src` prop, same
subscribed closures, same session and session counts. -/
def sameBinding (s t : Player) : Prop :=
  t.src = s.src ∧ t.listeners = s.listeners ∧ t.hls = s.hls ∧
  t.hlsCreated = s.hlsCreated ∧ t.hlsDestroyed = s.hlsDestroyed

/-! ## The host page and the overlay store

`LandingPage.jsx` owns the overlay list and hands `handleOverlayUpdate` to the
player as `onOverlayUpdate`.  The store is reached through `axios`; what a
request comes back with is an input of the model. -/

/-- How an `async` function ends: its promise is fulfilled, or rejected with
a reason. -/
inductive Settled
  | fulfilled
  | rejected (reason : String)
  deriving DecidableEq, Repr

/-- State of the host page as far as overlay updates touch it: the `useState`
cells `overlays`, `selectedOverlay`, `isConnected` and `loading`, the `PUT`
requests sent to the store and the lines written by `console.error`, oldest
first. -/
structure Host where
  overlays : List OverlayRecord
  selectedOverlay : Option OverlayRecord
  isConnected : Bool
  loading : Bool
  puts : List OverlayUpdate
  log : List String
  deriving DecidableEq, Repr

/-- `loadOverlays` (LandingPage lines 37-49); `get` is what `axios.get` comes
back with.  The `catch` takes every failure, so the promise is fulfilled. -/
def loadOverlays (get : Except String (List OverlayRecord)) (h : Host) : Settled × Host :=
  let h := { h with loading := true }
  let h :=
    match get with
    | Except.ok data => { h with overlays := data, isConnected := true }
    | Except.error e =>
        { h with log := h.log ++ ["Failed to load overlays: " ++ e], isConnected := false }
  (Settled.fulfilled, { h with loading := false })

/-- `updateOverlay` (LandingPage lines 62-69); `put` and `get` are what
`axios.put` and the `axios.get` of the reload come back with.  A failed `put`
leaves the `try` block before the reload. -/
def updateOverlay (u : OverlayUpdate) (put : Except String Unit)
    (get : Except String (List OverlayRecord)) (h : Host) : Settled × Host :=
  let h := { h with puts := h.puts ++ [u] }
  match put with
  | Except.error e =>
      (Settled.fulfilled, { h with log := h.log ++ ["Failed to update overlay: " ++ e] })
  | Except.ok _ =>
      match loadOverlays get h with
      | (Settled.fulfilled, h1) => (Settled.fulfilled, h1)
      | (Settled.rejected e, h1) =>
          (Settled.fulfilled, { h1 with log := h1.log ++ ["Failed to update overlay: " ++ e] })

/-- `handleOverlayUpdate` (LandingPage lines 87-89): it calls `updateOverlay`
and drops the promise, so it returns to the gesture listener at once. -/
def handleOverlayUpdate (u : OverlayUpdate) (put : Except String Unit)
    (get : Except String (List OverlayRecord)) (h : Host) : Host :=
  (updateOverlay u put get h).2

/-! ## What is rendered -/

/-- Where the overlay is drawn: `left`, `top` come from the record of the
last render (lines 411-412), moved by the transform the listeners wrote. -/
def renderedPosition (st : Stage) : Point :=
  match st.element.transform with
  | none => st.overlay.position
  | some p => { x := st.overlay.position.x + p.x, y := st.overlay.position.y + p.y }

/-- The size the overlay is drawn with: `style.width`, `style.height` of the element. -/
def renderedSize (st : Stage) : Size :=
  { width := st.element.width, height := st.element.height }

/-! ## The texts of the loading and error overlays -/

/-- The test `src.includes('rtsp://')` of the render (lines 523, 548). -/
def includesRtsp (src : String) : Bool := includes src.toList rtsp

/-- The choice made by the two nested conditionals of the render (lines
521-525 and 546-551): `src.includes('.m3u8') ? ... : src.includes('rtsp://')
? ... : ...`, named by the kind each branch speaks of. -/
def renderKind (src : String) : SourceKind :=
  if isM3u8 src then SourceKind.AdaptiveManifest
  else if includesRtsp src then SourceKind.UnsupportedProtocol
  else SourceKind.NativeFile

/-- The text of the loading overlay (lines 521-525). -/
def loadingText (src : String) : String :=
  match renderKind src with
  | SourceKind.AdaptiveManifest => "Connecting to HLS stream..."
  | SourceKind.UnsupportedProtocol => "Converting RTSP stream..."
  | SourceKind.NativeFile => "Loading video..."

/-- The hint of the error overlay (lines 546-551). -/
def errorHint (src : String) : String :=
  match renderKind src with
  | SourceKind.AdaptiveManifest =>
      "Make sure the RTSP conversion is running and the stream URL is accessible"
  | SourceKind.UnsupportedProtocol =>
      "RTSP streams need to be converted to HLS format first"
  | SourceKind.NativeFile => "Please verify the video URL is correct and accessible"

/-- The bounds the retry bookkeeping keeps: the counter is at most
`maxRetries` and the displayed number is the counter. -/
def retryInRange (s : Player) : Prop :=
  s.retryCount ≤ maxRetries ∧ s.retryDisplay = s.retryCount

/-! ## Basic facts -/

theorem includes_of_isPrefixOf (s p : List Char) (h : p.isPrefixOf s = true) :
    includes s p = true := by
  cases s with
  | nil => simpa [includes] using h
  | cons c t => simp [includes, h]

theorem includes_append_left (a s p : List Char) (h : includes s p = true) :
    includes (a ++ s) p = true := by
  induction a with
  | nil => simpa using h
  | cons c t ih => simp [includes, ih]

theorem includes_of_endsWith (s p : List Char) (h : endsWith s p = true) :
    includes s p = true := by
  unfold endsWith at h
  rw [List.isSuffixOf_iff_suffix] at h
  obtain ⟨a, rfl⟩ := h
  apply includes_append_left
  apply includes_of_isPrefixOf
  simp

theorem isM3u8_ne_empty (src : String) (h : isM3u8 src = true) : src ≠ "" := by
  intro he
  subst he
  revert h
  decide

theorem isRtsp_ne_empty (src : String) (h : isRtsp src = true) : src ≠ "" := by
  intro he
  subst he
  revert h
  decide

theorem sourceKind_manifest_iff (src : String) :
    sourceKind src = SourceKind.AdaptiveManifest ↔ isM3u8 src = true := by
  unfold sourceKind
  by_cases h : isM3u8 src = true
  · simp [h]
  · by_cases h2 : isRtsp src = true <;> simp [h, h2]

theorem sourceKind_unsupported_iff (src : String) :
    sourceKind src = SourceKind.UnsupportedProtocol ↔
      (isM3u8 src = false ∧ isRtsp src = true) := by
  unfold sourceKind
  by_cases h : isM3u8 src = true
  · simp [h]
  · by_cases h2 : isRtsp src = true <;> simp [h, h2]

theorem sourceKind_native_iff (src : String) :
    sourceKind src = SourceKind.NativeFile ↔
      (isM3u8 src = false ∧ isRtsp src = false) := by
  unfold sourceKind
  by_cases h : isM3u8 src = true
  · simp [h]
  · by_cases h2 : isRtsp src = true <;> simp [h, h2]

/-- On a manifest with retries left, `handleError` counts one more attempt and
queues one timer whose delay uses the new count. -/
theorem handleError_retry (src : String) (s : Player) (hm : isM3u8 src = true)
    (hlt : s.retryCount < maxRetries) :
    handleError src s =
      { s with videoLoaded := false, retryCount := s.retryCount + 1,
               retryDisplay := s.retryCount + 1,
               timers := s.timers ++ [{ delay := 1000 * (s.retryCount + 1), owner := src }] } := by
  simp [handleError, hm, hlt]

/-- On a manifest with no retry left, `handleError` only sets the error. -/
theorem handleError_exhausted (src : String) (s : Player) (hm : isM3u8 src = true)
    (hge : maxRetries ≤ s.retryCount) :
    handleError src s =
      { s with videoLoaded := false, streamError := some unavailableMessage } := by
  simp [handleError, hm, Nat.not_lt.mpr hge]

/-- On a source that is no manifest, `handleError` only sets the error. -/
theorem handleError_other (src : String) (s : Player) (hm : isM3u8 src = false) :
    handleError src s =
      { s with videoLoaded := false, streamError := some loadFailedMessage } := by
  simp [handleError, hm]

/-- With one subscribed closure a signal runs that closure's handler once. -/
theorem dispatch_single (h : String → Player → Player) (src : String) (s : Player)
    (hl : s.listeners = [src]) : dispatch h s = h src s := by
  simp [dispatch, hl]

/-- The state right after a manifest was bound on a player without handlers. -/
theorem sourceEffect_manifest (env : Env) (src : String) (s : Player)
    (hm : isM3u8 src = true) :
    (sourceEffect env src s).listeners = s.listeners ++ [src] ∧
    (sourceEffect env src s).retryCount = 0 ∧
    (sourceEffect env src s).retryDisplay = 0 ∧
    (sourceEffect env src s).streamError = none ∧
    (sourceEffect env src s).videoLoaded = false ∧
    (sourceEffect env src s).timers = s.timers ∧
    (sourceEffect env src s).loadCalls = s.loadCalls + 1 := by
  have hne := isM3u8_ne_empty src hm
  have hk := (sourceKind_manifest_iff src).mpr hm
  unfold sourceEffect
  simp only [hne, if_false, hk, subscribe, destroyHls]
  cases s.hls <;> cases env.nativeHls <;> cases env.hlsJs <;> simp

/-- One quiet event on a player whose only subscribed closure is that of a
manifest: the closure stays, and only an error signal moves the counter. -/
theorem step_quiet (env : Env) (src : String) (hm : isM3u8 src = true) (e : Event)
    (s : Player) (hq : e.quiet = true) (hl : s.listeners = [src])
    (hc : s.retryCount ≤ maxRetries) :
    (step env e s).listeners = [src] ∧
    (step env e s).retryCount = min maxRetries (s.retryCount + errorCount [e]) ∧
    (s.retryCount + errorCount [e] ≤ maxRetries →
      (step env e s).streamError = s.streamError) := by
  cases e with
  | error =>
      simp only [step, dispatch_single handleError src s hl]
      by_cases hlt : s.retryCount < maxRetries
      · rw [handleError_retry src s hm hlt]
        refine ⟨hl, ?_, fun _ => rfl⟩
        simp only [errorCount, maxRetries, List.count_singleton, beq_self_eq_true,
          if_true] at *
        omega
      · have hge : maxRetries ≤ s.retryCount := Nat.le_of_not_lt hlt
        rw [handleError_exhausted src s hm hge]
        refine ⟨hl, ?_, fun h => ?_⟩
        · simp only [errorCount, maxRetries, List.count_singleton, beq_self_eq_true,
            if_true] at *
          omega
        · simp only [errorCount, maxRetries, List.count_singleton, beq_self_eq_true,
            if_true] at *
          omega
  | play => simp [step, dispatch, hl, handlePlay, errorCount, hc]
  | pause => simp [step, dispatch, hl, handlePause, errorCount, hc]
  | loadstart => simp [step, hl, errorCount, hc]
  | waiting => simp [step, hl, errorCount, hc]
  | playing => simp [step, dispatch, hl, handlePlay, errorCount, hc]
  | timer i =>
      simp only [step, fireTimer, timerCallback]
      by_cases hi : i < s.timers.length <;> simp [hi, hc, hl, errorCount]
  | setSrc _ => simp [Event.quiet] at hq
  | unmount => simp [Event.quiet] at hq
  | loadedmetadata _ _ => simp [Event.quiet] at hq
  | canplay => simp [Event.quiet] at hq
  | manifestParsed => simp [Event.quiet] at hq
  | hlsFailure _ _ _ => simp [Event.quiet] at hq
  | retry => simp [Event.quiet] at hq

/-- Quiet events on a bound manifest: the counter is the number of error
signals seen, capped at `maxRetries`, and no error message appears before the
cap is passed. -/
theorem run_quiet (env : Env) (src : String) (hm : isM3u8 src = true) :
    ∀ (evs : List Event) (s : Player), quietTrace evs = true → s.listeners = [src] →
      s.retryCount ≤ maxRetries →
      (run env evs s).listeners = [src] ∧
      (run env evs s).retryCount = min maxRetries (s.retryCount + errorCount evs) ∧
      (s.retryCount + errorCount evs ≤ maxRetries →
        (run env evs s).streamError = s.streamError) := by
  intro evs
  induction evs with
  | nil =>
      intro s _ hl hc
      simp [run, errorCount, hl, hc]
  | cons e rest ih =>
      intro s hq hl hc
      simp only [quietTrace, List.all_cons, Bool.and_eq_true] at hq
      obtain ⟨h1, h2, h3⟩ := step_quiet env src hm e s hq.1 hl hc
      have hc2 : (step env e s).retryCount ≤ maxRetries := by
        rw [h2]; exact Nat.min_le_left _ _
      obtain ⟨i1, i2, i3⟩ := ih (step env e s) hq.2 h1 hc2
      have hrun : run env (e :: rest) s = run env rest (step env e s) := by
        simp [run]
      have hcount : errorCount (e :: rest) = errorCount [e] + errorCount rest := by
        simp only [errorCount]
        rw [← List.count_append]
        rfl
      rw [hrun, hcount]
      refine ⟨i1, ?_, fun h => ?_⟩
      · rw [i2, h2]
        simp only [maxRetries] at *
        omega
      · rw [i3, h3]
        · omega
        · rw [h2]
          simp only [maxRetries] at *
          omega

/-- A freshly bound manifest on a player without handlers, followed by quiet
events: what `run_quiet` gives from the bound state. -/
theorem run_quiet_bound (env : Env) (src : String) (s0 : Player) (pre : List Event)
    (hm : isM3u8 src = true) (h0 : s0.listeners = []) (hq : quietTrace pre = true) :
    (run env pre (sourceEffect env src s0)).listeners = [src] ∧
    (run env pre (sourceEffect env src s0)).retryCount = min maxRetries (errorCount pre) ∧
    (errorCount pre ≤ maxRetries →
      (run env pre (sourceEffect env src s0)).streamError = none) := by
  obtain ⟨b1, b2, _, b4, _⟩ := sourceEffect_manifest env src s0 hm
  have hl : (sourceEffect env src s0).listeners = [src] := by rw [b1, h0]; rfl
  have hc : (sourceEffect env src s0).retryCount ≤ maxRetries := by rw [b2]; exact Nat.zero_le _
  obtain ⟨r1, r2, r3⟩ := run_quiet env src hm pre (sourceEffect env src s0) hq hl hc
  refine ⟨r1, ?_, fun h => ?_⟩
  · rw [r2, b2, Nat.zero_add]
  · rw [r3, b4]
    rw [b2, Nat.zero_add]
    exact h

/-! ## Retry policy (C1, C2, C3) -/

/-- C1, as stated, fails: on the manifest `http://h/live.m3u8`, bound on the
initial player, the state after exactly five consecutive error signals has no
error message (it is not the terminal state), and the fifth error signal did
schedule a reload, with a delay of 5000 ms. -/
theorem five_errors_not_terminal :
    (run ⟨false, true⟩ (List.replicate 5 Event.error)
        (sourceEffect ⟨false, true⟩ "http://h/live.m3u8" Player.initial)).streamError = none ∧
    (run ⟨false, true⟩ (List.replicate 5 Event.error)
        (sourceEffect ⟨false, true⟩ "http://h/live.m3u8" Player.initial)).retryCount = 5 ∧
    (run ⟨false, true⟩ (List.replicate 5 Event.error)
        (sourceEffect ⟨false, true⟩ "http://h/live.m3u8" Player.initial)).timers =
      (run ⟨false, true⟩ (List.replicate 4 Event.error)
        (sourceEffect ⟨false, true⟩ "http://h/live.m3u8" Player.initial)).timers ++
        [{ delay := 5000, owner := "http://h/live.m3u8" }] := by
  decide

/-- C1, amended: for every manifest source bound on a player without
handlers, after five error signals (with quiet events between them and no
readiness signal) the state is not yet terminal, with attempt 5; the sixth
error signal makes it terminal (`Stream unavailable` message, attempt still 5)
and schedules no reload and calls no reload. -/
theorem retries_exhausted_on_sixth_error (env : Env) (src : String) (s0 : Player)
    (pre : List Event) (hm : isM3u8 src = true) (h0 : s0.listeners = [])
    (hq : quietTrace pre = true) (hn : errorCount pre = 5) :
    (run env pre (sourceEffect env src s0)).streamError = none ∧
    (run env pre (sourceEffect env src s0)).retryCount = 5 ∧
    (step env Event.error (run env pre (sourceEffect env src s0))).streamError =
      some unavailableMessage ∧
    (step env Event.error (run env pre (sourceEffect env src s0))).retryCount = 5 ∧
    (step env Event.error (run env pre (sourceEffect env src s0))).timers =
      (run env pre (sourceEffect env src s0)).timers ∧
    (step env Event.error (run env pre (sourceEffect env src s0))).loadCalls =
      (run env pre (sourceEffect env src s0)).loadCalls := by
  obtain ⟨r1, r2, r3⟩ := run_quiet_bound env src s0 pre hm h0 hq
  have hc : (run env pre (sourceEffect env src s0)).retryCount = 5 := by
    rw [r2, hn]; rfl
  have hs : (run env pre (sourceEffect env src s0)).streamError = none :=
    r3 (by rw [hn]; exact Nat.le_refl _)
  have hstep : step env Event.error (run env pre (sourceEffect env src s0)) =
      handleError src (run env pre (sourceEffect env src s0)) := by
    simp only [step]
    exact dispatch_single handleError src _ r1
  have hge : maxRetries ≤ (run env pre (sourceEffect env src s0)).retryCount := by
    rw [hc]; exact Nat.le_refl _
  rw [hstep, handleError_exhausted src _ hm hge]
  exact ⟨hs, hc, rfl, hc, rfl, rfl⟩

/-- Witness of `retries_exhausted_on_sixth_error`: a manifest bound on the
initial player, five errors with a timer firing and a play signal between. -/
theorem retries_exhausted_on_sixth_error_witness :
    (step ⟨false, true⟩ Event.error
      (run ⟨false, true⟩
        [Event.error, Event.timer 0, Event.error, Event.error, Event.play, Event.error,
          Event.error]
        (sourceEffect ⟨false, true⟩ "http://h/live.m3u8" Player.initial))).streamError =
      some unavailableMessage :=
  (retries_exhausted_on_sixth_error ⟨false, true⟩ "http://h/live.m3u8" Player.initial
    [Event.error, Event.timer 0, Event.error, Event.error, Event.play, Event.error,
      Event.error]
    (by decide) rfl (by decide) (by decide)).2.2.1

/-- C2: on a manifest source, one error signal in a state with retry count
`a < 5` sets the count (and its displayed copy) to `a + 1`, schedules exactly
one reload timer, calls no reload itself and leaves the error message as it
was; with `a = 5` it sets the `Stream unavailable` error, leaves the count at
5 and schedules nothing. -/
theorem handleError_manifest_policy (src : String) (s : Player) (hm : isM3u8 src = true) :
    (s.retryCount < 5 →
      (handleError src s).retryCount = s.retryCount + 1 ∧
      (handleError src s).retryDisplay = s.retryCount + 1 ∧
      (handleError src s).timers =
        s.timers ++ [{ delay := 1000 * (s.retryCount + 1), owner := src }] ∧
      (handleError src s).streamError = s.streamError ∧
      (handleError src s).loadCalls = s.loadCalls) ∧
    (s.retryCount = 5 →
      (handleError src s).streamError = some unavailableMessage ∧
      (handleError src s).retryCount = 5 ∧
      (handleError src s).retryDisplay = s.retryDisplay ∧
      (handleError src s).timers = s.timers ∧
      (handleError src s).loadCalls = s.loadCalls) := by
  constructor
  · intro hlt
    rw [handleError_retry src s hm hlt]
    exact ⟨rfl, rfl, rfl, rfl, rfl⟩
  · intro h5
    rw [handleError_exhausted src s hm (by rw [h5]; exact Nat.le_refl _)]
    exact ⟨rfl, h5, rfl, rfl, rfl⟩

/-- Witness of `handleError_manifest_policy`: the first error on a bound
manifest counts attempt 1 and queues one timer of 1000 ms. -/
theorem handleError_manifest_policy_witness :
    isM3u8 "http://h/live.m3u8" = true ∧
    (handleError "http://h/live.m3u8" Player.initial).retryCount = 1 ∧
    (handleError "http://h/live.m3u8" Player.initial).timers =
      [{ delay := 1000, owner := "http://h/live.m3u8" }] :=
  ⟨by decide,
   ((handleError_manifest_policy "http://h/live.m3u8" Player.initial (by decide)).1
      (by decide)).1,
   ((handleError_manifest_policy "http://h/live.m3u8" Player.initial (by decide)).1
      (by decide)).2.2.1⟩

/-- C3: for `1 ≤ n ≤ 5`, the `n`-th error signal on a manifest source bound on
a player without handlers (quiet events may lie between the errors) schedules
exactly one timer, with delay `n * 1000` ms. -/
theorem nth_error_delay (env : Env) (src : String) (s0 : Player) (pre : List Event)
    (n : Nat) (hm : isM3u8 src = true) (h0 : s0.listeners = [])
    (hq : quietTrace pre = true) (h1 : 1 ≤ n) (h5 : n ≤ 5) (hn : errorCount pre = n - 1) :
    (step env Event.error (run env pre (sourceEffect env src s0))).timers =
      (run env pre (sourceEffect env src s0)).timers ++
        [{ delay := n * 1000, owner := src }] := by
  obtain ⟨r1, r2, _⟩ := run_quiet_bound env src s0 pre hm h0 hq
  have hc : (run env pre (sourceEffect env src s0)).retryCount = n - 1 := by
    rw [r2, hn]
    simp only [maxRetries]
    omega
  have hlt : (run env pre (sourceEffect env src s0)).retryCount < maxRetries := by
    rw [hc]
    simp only [maxRetries]
    omega
  have hstep : step env Event.error (run env pre (sourceEffect env src s0)) =
      handleError src (run env pre (sourceEffect env src s0)) := by
    simp only [step]
    exact dispatch_single handleError src _ r1
  rw [hstep, handleError_retry src _ hm hlt]
  simp only [hc]
  have : 1000 * (n - 1 + 1) = n * 1000 := by omega
  rw [this]

/-- Witness of `nth_error_delay`: the third error on a bound manifest
schedules a timer of 3000 ms. -/
theorem nth_error_delay_witness :
    (step ⟨true, false⟩ Event.error
      (run ⟨true, false⟩ [Event.error, Event.error]
        (sourceEffect ⟨true, false⟩ "http://h/live.m3u8" Player.initial))).timers =
      (run ⟨true, false⟩ [Event.error, Event.error]
        (sourceEffect ⟨true, false⟩ "http://h/live.m3u8" Player.initial)).timers ++
        [{ delay := 3 * 1000, owner := "http://h/live.m3u8" }] :=
  nth_error_delay ⟨true, false⟩ "http://h/live.m3u8" Player.initial
    [Event.error, Event.error] 3 (by decide) rfl (by decide) (by decide) (by decide)
    (by decide)

/-! ## Binding, unbinding and pending timers (C4, C5) -/

/-- Destroying the hls.js session touches nothing but the session. -/
theorem destroyHls_fields (s : Player) :
    (destroyHls s).timers = s.timers ∧ (destroyHls s).retryCount = s.retryCount ∧
    (destroyHls s).retryDisplay = s.retryDisplay ∧ (destroyHls s).listeners = s.listeners ∧
    (destroyHls s).loadCalls = s.loadCalls ∧ (destroyHls s).videoSrc = s.videoSrc ∧
    (destroyHls s).streamError = s.streamError ∧ (destroyHls s).hls = none ∧
    (destroyHls s).playCalls = s.playCalls ∧ (destroyHls s).crossorigin = s.crossorigin ∧
    (destroyHls s).videoLoaded = s.videoLoaded := by
  unfold destroyHls
  cases h : s.hls <;> simp [h]

/-- The cleanup of a source effect removes no pending timer and does not
touch the retry counter. -/
theorem sourceCleanup_timers (src : String) (s : Player) :
    (sourceCleanup src s).timers = s.timers ∧
    (sourceCleanup src s).retryCount = s.retryCount ∧
    (sourceCleanup src s).loadCalls = s.loadCalls := by
  unfold sourceCleanup
  by_cases he : src = ""
  · simp [he]
  · simp only [he, if_false]
    cases sourceKind src <;> simp [(destroyHls_fields _).1, (destroyHls_fields _).2.1,
      (destroyHls_fields _).2.2.2.2.1]

/-- The source effect removes no pending timer. -/
theorem sourceEffect_timers (env : Env) (src : String) (s : Player) :
    (sourceEffect env src s).timers = s.timers := by
  unfold sourceEffect
  by_cases he : src = ""
  · simp [he]
  · simp only [he, if_false]
    cases sourceKind src <;> cases env.nativeHls <;> cases env.hlsJs <;>
      simp [subscribe, (destroyHls_fields _).1]

/-- The source effect of a present source resets the retry counter and its
displayed copy. -/
theorem sourceEffect_reset (env : Env) (src : String) (s : Player) (hne : src ≠ "") :
    (sourceEffect env src s).retryCount = 0 ∧ (sourceEffect env src s).retryDisplay = 0 := by
  unfold sourceEffect
  simp only [hne, if_false]
  cases sourceKind src <;> cases env.nativeHls <;> cases env.hlsJs <;>
    simp [subscribe, (destroyHls_fields _).2.1, (destroyHls_fields _).2.2.1]

/-- A pending timer that fires takes the reload branch exactly when the
counter is at most `maxRetries`. -/
theorem fireTimer_loadCalls (i : Nat) (s : Player) (hi : i < s.timers.length) :
    (fireTimer i s).loadCalls =
      (if s.retryCount ≤ maxRetries then s.loadCalls + 1 else s.loadCalls) ∧
    (fireTimer i s).timers = s.timers.eraseIdx i := by
  unfold fireTimer timerCallback
  by_cases hc : s.retryCount ≤ maxRetries <;> simp [hi, hc]

/-- C4, as stated, fails: an error on the manifest `http://h/a.m3u8` schedules
a timer; after the source is replaced by `http://h/b.mp4`, and likewise after
the effect cleanup of an unmount, the timer is still pending and its firing
calls `video.load()` once more. -/
theorem stale_timer_reloads :
    (run ⟨false, true⟩ [Event.setSrc "http://h/a.m3u8", Event.error,
        Event.setSrc "http://h/b.mp4"] Player.initial).timers =
      [{ delay := 1000, owner := "http://h/a.m3u8" }] ∧
    (run ⟨false, true⟩ [Event.setSrc "http://h/a.m3u8", Event.error,
        Event.setSrc "http://h/b.mp4", Event.timer 0] Player.initial).loadCalls =
      (run ⟨false, true⟩ [Event.setSrc "http://h/a.m3u8", Event.error,
        Event.setSrc "http://h/b.mp4"] Player.initial).loadCalls + 1 ∧
    (run ⟨false, true⟩ [Event.setSrc "http://h/a.m3u8", Event.error,
        Event.unmount] Player.initial).timers =
      [{ delay := 1000, owner := "http://h/a.m3u8" }] ∧
    (run ⟨false, true⟩ [Event.setSrc "http://h/a.m3u8", Event.error,
        Event.unmount, Event.timer 0] Player.initial).loadCalls =
      (run ⟨false, true⟩ [Event.setSrc "http://h/a.m3u8", Event.error,
        Event.unmount] Player.initial).loadCalls + 1 := by
  decide

/-- C4, amended: unbinding a source and binding another one leave every
pending reload timer pending; a timer that fires calls `video.load()` exactly
when the retry counter is at most 5, which is the only guard of the callback;
after a different, present source was bound the counter is 0, so the timer of
the superseded source does call `video.load()`. -/
theorem timer_survives_rebind (env : Env) (b : String) (s : Player) (i : Nat)
    (hi : i < s.timers.length) :
    (step env Event.unmount s).timers = s.timers ∧
    (step env (Event.setSrc b) s).timers = s.timers ∧
    (fireTimer i s).loadCalls =
      (if s.retryCount ≤ 5 then s.loadCalls + 1 else s.loadCalls) ∧
    (b ≠ "" → b ≠ s.src →
      (fireTimer i (step env (Event.setSrc b) s)).loadCalls =
        (step env (Event.setSrc b) s).loadCalls + 1) := by
  have hset : (step env (Event.setSrc b) s).timers = s.timers := by
    simp only [step]
    by_cases hb : b = s.src
    · simp [hb]
    · simp only [hb, if_false]
      rw [sourceEffect_timers, (sourceCleanup_timers _ _).1]
  refine ⟨?_, hset, (fireTimer_loadCalls i s hi).1, fun hne hb => ?_⟩
  · simp only [step]
    exact (sourceCleanup_timers _ _).1
  · have hi2 : i < (step env (Event.setSrc b) s).timers.length := by rw [hset]; exact hi
    have hc : (step env (Event.setSrc b) s).retryCount = 0 := by
      simp only [step, hb, if_false]
      exact (sourceEffect_reset env b _ hne).1
    rw [(fireTimer_loadCalls i _ hi2).1, hc]
    simp [maxRetries]

/-- Witness of `timer_survives_rebind`: the state after one error on a bound
manifest has one pending timer. -/
theorem timer_survives_rebind_witness :
    (step ⟨false, true⟩ (Event.setSrc "http://h/b.mp4")
      (run ⟨false, true⟩ [Event.setSrc "http://h/a.m3u8", Event.error]
        Player.initial)).timers =
      (run ⟨false, true⟩ [Event.setSrc "http://h/a.m3u8", Event.error]
        Player.initial).timers :=
  (timer_survives_rebind ⟨false, true⟩ "http://h/b.mp4"
    (run ⟨false, true⟩ [Event.setSrc "http://h/a.m3u8", Event.error] Player.initial) 0
    (by decide)).2.1

/-- C5: binding a source (a present one: the effect does nothing for an empty
`src`) leaves the retry counter and its displayed copy at 0, whatever the
prior state; the same holds when the bind is reached through a change of the
`src` prop, after the cleanup of the previous effect. -/
theorem bind_resets_retry (env : Env) (src : String) (s : Player) (hne : src ≠ "") :
    (sourceEffect env src s).retryCount = 0 ∧
    (sourceEffect env src s).retryDisplay = 0 ∧
    (src ≠ s.src →
      (step env (Event.setSrc src) s).retryCount = 0 ∧
      (step env (Event.setSrc src) s).retryDisplay = 0) := by
  refine ⟨(sourceEffect_reset env src s hne).1, (sourceEffect_reset env src s hne).2,
    fun hs => ?_⟩
  simp only [step, hs, if_false]
  exact sourceEffect_reset env src _ hne

/-- Witness of `bind_resets_retry`: a native file bound over a manifest whose
retries were exhausted. -/
theorem bind_resets_retry_witness :
    (run ⟨false, true⟩ (List.replicate 6 Event.error)
        (sourceEffect ⟨false, true⟩ "http://h/live.m3u8" Player.initial)).retryCount = 5 ∧
    (sourceEffect ⟨false, true⟩ "http://h/b.mp4"
      (run ⟨false, true⟩ (List.replicate 6 Event.error)
        (sourceEffect ⟨false, true⟩ "http://h/live.m3u8" Player.initial))).retryCount = 0 :=
  ⟨by decide,
   (bind_resets_retry ⟨false, true⟩ "http://h/b.mp4"
      (run ⟨false, true⟩ (List.replicate 6 Event.error)
        (sourceEffect ⟨false, true⟩ "http://h/live.m3u8" Player.initial))
      (by decide)).1⟩

/-- The state right after a present native file was bound: the URI is
assigned to the media element as it is, the handlers of its closure are
subscribed, no session exists and `video.load()` is not called. -/
theorem sourceEffect_native (env : Env) (src : String) (s : Player)
    (hk : sourceKind src = SourceKind.NativeFile) (hne : src ≠ "") :
    (sourceEffect env src s).videoSrc = some src ∧
    (sourceEffect env src s).hls = none ∧
    (sourceEffect env src s).listeners = s.listeners ++ [src] ∧
    (sourceEffect env src s).loadCalls = s.loadCalls := by
  unfold sourceEffect
  simp only [hne, if_false, hk, subscribe]
  simp [(destroyHls_fields _).2.2.2.1, (destroyHls_fields _).2.2.2.2.1,
    (destroyHls_fields _).2.2.2.2.2.2.2.1]

/-! ## Classification of the source (C6, C7, C8) -/

/-- C6: a URI ending in `.m3u8` is dispatched as an adaptive manifest when it
is bound, whatever its scheme: the test for the manifest comes first, so a URI
that also starts with `rtsp://` is a manifest and not an unsupported
protocol; the bind then takes the manifest branch (no error message, handlers
subscribed, one `video.load()`). -/
theorem manifest_suffix_is_adaptive (env : Env) (src : String) (s : Player)
    (h : endsWith src.toList m3u8 = true) :
    sourceKind src = SourceKind.AdaptiveManifest ∧
    (isRtsp src = true → sourceKind src ≠ SourceKind.UnsupportedProtocol) ∧
    (sourceEffect env src s).streamError = none ∧
    (sourceEffect env src s).listeners = s.listeners ++ [src] ∧
    (sourceEffect env src s).loadCalls = s.loadCalls + 1 := by
  have hm : isM3u8 src = true := includes_of_endsWith _ _ h
  have hk := (sourceKind_manifest_iff src).mpr hm
  obtain ⟨b1, _, _, b4, _, _, b7⟩ := sourceEffect_manifest env src s hm
  refine ⟨hk, fun _ => ?_, b4, b1, b7⟩
  rw [hk]
  decide

/-- Witness of `manifest_suffix_is_adaptive`: `rtsp://cam/live.m3u8` starts
with the camera scheme, ends in the manifest extension, and is a manifest. -/
theorem manifest_suffix_is_adaptive_witness :
    isRtsp "rtsp://cam/live.m3u8" = true ∧
    endsWith ("rtsp://cam/live.m3u8" : String).toList m3u8 = true ∧
    sourceKind "rtsp://cam/live.m3u8" = SourceKind.AdaptiveManifest :=
  ⟨by decide, by decide,
   (manifest_suffix_is_adaptive ⟨false, false⟩ "rtsp://cam/live.m3u8" Player.initial
      (by decide)).1⟩

/-- C7, as stated, fails: `http://h/live.m3u8?token=1` neither ends in
`.m3u8` nor starts with `rtsp://`, yet it is dispatched as a manifest, and an
error on it is retried (one timer of 1000 ms, no error message). -/
theorem manifest_with_query_not_native :
    endsWith ("http://h/live.m3u8?token=1" : String).toList m3u8 = false ∧
    isRtsp "http://h/live.m3u8?token=1" = false ∧
    sourceKind "http://h/live.m3u8?token=1" = SourceKind.AdaptiveManifest ∧
    (handleError "http://h/live.m3u8?token=1"
      (sourceEffect ⟨false, true⟩ "http://h/live.m3u8?token=1" Player.initial)).timers =
      [{ delay := 1000, owner := "http://h/live.m3u8?token=1" }] ∧
    (handleError "http://h/live.m3u8?token=1"
      (sourceEffect ⟨false, true⟩ "http://h/live.m3u8?token=1" Player.initial)).streamError =
      none := by
  decide

/-- C7, amended: a URI that neither contains `.m3u8` nor starts with
`rtsp://` is a native file, when it is bound and when an error is handled: a
present one is assigned to the media element as it is, with no reload call,
and an error on it sets the `Video failed to load` message and schedules no
retry. -/
theorem native_classification (env : Env) (src : String) (s : Player)
    (hm : isM3u8 src = false) (hr : isRtsp src = false) :
    sourceKind src = SourceKind.NativeFile ∧
    (src ≠ "" →
      (sourceEffect env src s).videoSrc = some src ∧
      (sourceEffect env src s).hls = none ∧
      (sourceEffect env src s).listeners = s.listeners ++ [src] ∧
      (sourceEffect env src s).loadCalls = s.loadCalls) ∧
    (handleError src s).streamError = some loadFailedMessage ∧
    (handleError src s).retryCount = s.retryCount ∧
    (handleError src s).timers = s.timers ∧
    (handleError src s).loadCalls = s.loadCalls := by
  have hk := (sourceKind_native_iff src).mpr ⟨hm, hr⟩
  rw [handleError_other src s hm]
  exact ⟨hk, fun hne => sourceEffect_native env src s hk hne, rfl, rfl, rfl, rfl⟩

/-- Witness of `native_classification`: an MP4 file over http. -/
theorem native_classification_witness :
    sourceKind "http://h/b.mp4" = SourceKind.NativeFile ∧
    (handleError "http://h/b.mp4" Player.initial).streamError = some loadFailedMessage :=
  ⟨(native_classification ⟨false, true⟩ "http://h/b.mp4" Player.initial (by decide)
      (by decide)).1,
   (native_classification ⟨false, true⟩ "http://h/b.mp4" Player.initial (by decide)
      (by decide)).2.2.1⟩

/-- C8: binding a source dispatched as unsupported protocol (it starts with
`rtsp://` and is no manifest) ends in the error state with the `must be
converted` message, not loaded, retry counter 0, and does nothing else: the
media element keeps its source and attribute, no handler is subscribed, no
session exists or is created, nothing is loaded, played or scheduled, and the
effect leaves no cleanup behind. -/
theorem unsupported_bind_only_reports (env : Env) (src : String) (s : Player)
    (hk : sourceKind src = SourceKind.UnsupportedProtocol) :
    (sourceEffect env src s).streamError = some rtspMessage ∧
    (sourceEffect env src s).videoLoaded = false ∧
    (sourceEffect env src s).retryCount = 0 ∧
    (sourceEffect env src s).retryDisplay = 0 ∧
    (sourceEffect env src s).videoSrc = s.videoSrc ∧
    (sourceEffect env src s).crossorigin = s.crossorigin ∧
    (sourceEffect env src s).listeners = s.listeners ∧
    (sourceEffect env src s).hls = none ∧
    (sourceEffect env src s).loadCalls = s.loadCalls ∧
    (sourceEffect env src s).playCalls = s.playCalls ∧
    (sourceEffect env src s).timers = s.timers ∧
    sourceCleanup src (sourceEffect env src s) = sourceEffect env src s ∧
    (sourceEffect env src s).hlsCreated = s.hlsCreated := by
  have hne : src ≠ "" := isRtsp_ne_empty src ((sourceKind_unsupported_iff src).mp hk).2
  have hclean : ∀ st, sourceCleanup src st = st := by
    intro st
    simp [sourceCleanup, hne, hk]
  have hcreated : (sourceEffect env src s).hlsCreated = s.hlsCreated := by
    unfold sourceEffect destroyHls
    simp only [hne, if_false, hk]
    cases s.hls <;> rfl
  refine ⟨?_, ?_, ?_, ?_, ?_, ?_, ?_, ?_, ?_, ?_, ?_, hclean _, hcreated⟩ <;>
    simp [sourceEffect, hne, hk, destroyHls_fields]

/-- Witness of `unsupported_bind_only_reports`: a camera URI bound on the
initial player. -/
theorem unsupported_bind_only_reports_witness :
    sourceKind "rtsp://cam/stream1" = SourceKind.UnsupportedProtocol ∧
    (sourceEffect ⟨false, true⟩ "rtsp://cam/stream1" Player.initial).streamError =
      some rtspMessage :=
  ⟨by decide,
   (unsupported_bind_only_reports ⟨false, true⟩ "rtsp://cam/stream1" Player.initial
      (by decide)).1⟩

/-! ## Errors on native files and readiness signals (C9, C10) -/

/-- One event that keeps the source bound, on a player whose only subscribed
closure is that of a source that is no manifest: the closure stays and the
retry counter stays 0. -/
theorem step_native_bound (env : Env) (src : String) (hm : isM3u8 src = false)
    (e : Event) (s : Player) (hk : e.keepsSource = true) (hl : s.listeners = [src])
    (hc : s.retryCount = 0) :
    (step env e s).listeners = [src] ∧ (step env e s).retryCount = 0 := by
  cases e with
  | setSrc _ => simp [Event.keepsSource] at hk
  | unmount => simp [Event.keepsSource] at hk
  | loadedmetadata w h => simp [step, dispatch, hl, handleLoadedMetadata]
  | canplay => simp [step, dispatch, hl, handleCanPlay]
  | error =>
      simp only [step, dispatch_single handleError src s hl, handleError_other src s hm]
      exact ⟨hl, hc⟩
  | play => simp [step, dispatch, hl, handlePlay, hc]
  | pause => simp [step, dispatch, hl, handlePause, hc]
  | loadstart => simp [step, hl, hc]
  | waiting => simp [step, hl, hc]
  | playing => simp [step, dispatch, hl, handlePlay, hc]
  | timer i =>
      simp only [step, fireTimer, timerCallback]
      by_cases hi : i < s.timers.length <;> simp [hi, hc, hl, maxRetries]
  | manifestParsed =>
      simp only [step, hlsManifestParsed]
      cases s.hls <;> simp [hl, hc]
  | hlsFailure fatal type details =>
      simp only [step, hlsError]
      cases s.hls <;> cases fatal <;> cases type <;> simp [hl, hc]
  | retry =>
      simp only [step, retryClick]
      cases (s.streamError.isSome && isM3u8 s.src) <;> simp [hl, hc]

/-- While a source that is no manifest stays bound, its closure is the only
one subscribed and the retry counter is 0. -/
theorem run_native_bound (env : Env) (src : String) (hm : isM3u8 src = false) :
    ∀ (evs : List Event) (s : Player), boundTrace evs = true → s.listeners = [src] →
      s.retryCount = 0 →
      (run env evs s).listeners = [src] ∧ (run env evs s).retryCount = 0 := by
  intro evs
  induction evs with
  | nil =>
      intro s _ hl hc
      exact ⟨hl, hc⟩
  | cons e rest ih =>
      intro s hq hl hc
      simp only [boundTrace, List.all_cons, Bool.and_eq_true] at hq
      obtain ⟨h1, h2⟩ := step_native_bound env src hm e s hq.1 hl hc
      have hrun : run env (e :: rest) s = run env rest (step env e s) := by
        simp [run]
      rw [hrun]
      exact ih (step env e s) hq.2 h1 h2

/-- C9: on a source dispatched as native file an error signal is terminal at
once.  In every state `handleError` only clears `videoLoaded` and sets the
`Video failed to load` message: the retry counter is not touched, no timer is
scheduled and no reload is called.  After such a source was bound on a player
without handlers, and for as long as it stays bound, the counter is 0, so an
error signal gives the load-failed error with retry count 0. -/
theorem native_error_terminal (env : Env) (src : String) (s s0 : Player)
    (evs : List Event) (hk : sourceKind src = SourceKind.NativeFile) :
    (handleError src s).streamError = some loadFailedMessage ∧
    (handleError src s).videoLoaded = false ∧
    (handleError src s).retryCount = s.retryCount ∧
    (handleError src s).retryDisplay = s.retryDisplay ∧
    (handleError src s).timers = s.timers ∧
    (handleError src s).loadCalls = s.loadCalls ∧
    (src ≠ "" → s0.listeners = [] → boundTrace evs = true →
      (step env Event.error (run env evs (sourceEffect env src s0))).streamError =
        some loadFailedMessage ∧
      (step env Event.error (run env evs (sourceEffect env src s0))).retryCount = 0 ∧
      (step env Event.error (run env evs (sourceEffect env src s0))).timers =
        (run env evs (sourceEffect env src s0)).timers ∧
      (step env Event.error (run env evs (sourceEffect env src s0))).loadCalls =
        (run env evs (sourceEffect env src s0)).loadCalls) := by
  obtain ⟨hm, hr⟩ := (sourceKind_native_iff src).mp hk
  rw [handleError_other src s hm]
  refine ⟨rfl, rfl, rfl, rfl, rfl, rfl, fun hne h0 hq => ?_⟩
  obtain ⟨_, _, n3, _⟩ := sourceEffect_native env src s0 hk hne
  have hl : (sourceEffect env src s0).listeners = [src] := by rw [n3, h0]; rfl
  have hc := (sourceEffect_reset env src s0 hne).1
  obtain ⟨r1, r2⟩ := run_native_bound env src hm evs _ hq hl hc
  have hstep : step env Event.error (run env evs (sourceEffect env src s0)) =
      handleError src (run env evs (sourceEffect env src s0)) := by
    simp only [step]
    exact dispatch_single handleError src _ r1
  rw [hstep, handleError_other src _ hm]
  exact ⟨rfl, r2, rfl, rfl⟩

/-- Witness of `native_error_terminal`: an MP4 file that was ready and
playing, then fails. -/
theorem native_error_terminal_witness :
    sourceKind "http://h/b.mp4" = SourceKind.NativeFile ∧
    (step ⟨false, true⟩ Event.error
      (run ⟨false, true⟩ [Event.loadedmetadata 640 480, Event.canplay, Event.playing]
        (sourceEffect ⟨false, true⟩ "http://h/b.mp4" Player.initial))).streamError =
      some loadFailedMessage :=
  ⟨by decide,
   ((native_error_terminal ⟨false, true⟩ "http://h/b.mp4" Player.initial Player.initial
      [Event.loadedmetadata 640 480, Event.canplay, Event.playing] (by decide)).2.2.2.2.2.2
      (by decide) rfl (by decide)).1⟩

/-- C10: in every state, whatever came before, `handleLoadedMetadata` and
`handleCanPlay` give the ready state: loaded, no error message, retry counter
and its displayed copy 0; pending timers and the source are left alone. -/
theorem ready_signal_resets (w h : Nat) (s : Player) :
    (handleLoadedMetadata w h s).videoLoaded = true ∧
    (handleLoadedMetadata w h s).streamError = none ∧
    (handleLoadedMetadata w h s).retryCount = 0 ∧
    (handleLoadedMetadata w h s).retryDisplay = 0 ∧
    (handleLoadedMetadata w h s).videoDimensions = (w, h) ∧
    (handleCanPlay s).videoLoaded = true ∧
    (handleCanPlay s).streamError = none ∧
    (handleCanPlay s).retryCount = 0 ∧
    (handleCanPlay s).retryDisplay = 0 :=
  ⟨rfl, rfl, rfl, rfl, rfl, rfl, rfl, rfl, rfl⟩

/-! ## Doubles and whole numbers -/

theorem dropBits_le (a s0 : Nat) (h2 : a / 2 ^ s0 < 2 ^ 53) :
    ∀ (fuel start : Nat), start ≤ s0 → dropBits fuel a start ≤ s0 := by
  intro fuel
  induction fuel with
  | zero =>
      intro start h1
      rw [dropBits]
      exact h1
  | succ f ih =>
      intro start h1
      rw [dropBits]
      by_cases hc : a / 2 ^ start < 2 ^ 53
      · rw [if_pos hc]
        exact h1
      · rw [if_neg hc]
        apply ih
        rcases Nat.lt_or_eq_of_le h1 with h | h
        · exact h
        · subst h
          exact absurd h2 hc

/-- A magnitude that fits in 53 bits after dropping low zero bits is a double:
rounding leaves it as it is. -/
theorem roundMagnitude_exact (a s0 : Nat) (h2 : a / 2 ^ s0 < 2 ^ 53) (hd : 2 ^ s0 ∣ a) :
    roundMagnitude a = a := by
  have hs : dropBits a a 0 ≤ s0 := dropBits_le a s0 h2 a 0 (Nat.zero_le _)
  have hdvd : 2 ^ dropBits a a 0 ∣ a := Dvd.dvd.trans (Nat.pow_dvd_pow 2 hs) hd
  have hr : a % 2 ^ dropBits a a 0 = 0 := Nat.mod_eq_zero_of_dvd hdvd
  have hpos : 0 < 2 ^ dropBits a a 0 := Nat.two_pow_pos _
  unfold roundMagnitude
  simp only [hr]
  have hne : ¬ (2 ^ dropBits a a 0 < 2 * 0 ∨
      (2 * 0 = 2 ^ dropBits a a 0 ∧ a / 2 ^ dropBits a a 0 % 2 = 1)) := by
    generalize 2 ^ dropBits a a 0 = p at hpos
    intro h
    rcases h with h | ⟨h, _⟩ <;> omega
  rw [if_neg hne]
  exact Nat.div_mul_cancel hdvd

theorem roundMagnitude_mul_pow (m k : Nat) (hm : m ≤ 2 ^ 53) :
    roundMagnitude (m * 2 ^ k) = m * 2 ^ k := by
  rcases Nat.lt_or_eq_of_le hm with h | h
  · apply roundMagnitude_exact _ k
    · rw [Nat.mul_div_cancel _ (Nat.two_pow_pos k)]
      exact h
    · exact Dvd.intro_left m rfl
  · subst h
    have hform : 2 ^ 53 * 2 ^ k = 2 ^ 52 * 2 ^ (k + 1) := by
      rw [Nat.pow_succ 2 k, Nat.pow_succ 2 52, Nat.mul_assoc, Nat.mul_comm 2 (2 ^ k)]
    rw [hform]
    apply roundMagnitude_exact _ (k + 1)
    · rw [Nat.mul_div_cancel _ (Nat.two_pow_pos (k + 1))]
      exact Nat.pow_lt_pow_right (by decide) (by decide)
    · exact Dvd.intro_left _ rfl

theorem two_pow_mul_lt (a b c : Nat) (h : a + b < c) : 2 ^ a * 2 ^ b < 2 ^ c := by
  rw [← Nat.pow_add]
  exact Nat.pow_lt_pow_right (by decide) h

/-- A whole number in the safe range is a double: its units are kept. -/
theorem roundDouble_safe (n : Int) (h : safeInteger n = true) :
    roundDouble (n * unitsPerOne) = JsNum.finite (n * unitsPerOne) := by
  have hn : n.natAbs ≤ 2 ^ 53 := of_decide_eq_true h
  have habs : (n * (unitsPerOne : Int)).natAbs = n.natAbs * 2 ^ 1074 := by
    rw [Int.natAbs_mul]
    rfl
  have hround := roundMagnitude_mul_pow n.natAbs 1074 hn
  have hsmall : ¬ (2 ^ 2098 ≤ n.natAbs * 2 ^ 1074) := by
    have h1 : n.natAbs * 2 ^ 1074 ≤ 2 ^ 53 * 2 ^ 1074 := Nat.mul_le_mul_right _ hn
    have h2 : 2 ^ 53 * 2 ^ 1074 < 2 ^ 2098 := two_pow_mul_lt 53 1074 2098 (by decide)
    exact Nat.not_le.mpr (Nat.lt_of_le_of_lt h1 h2)
  unfold roundDouble
  rw [habs, hround, if_neg hsmall, ← habs]
  generalize n * (unitsPerOne : Int) = x
  by_cases hneg : x < 0
  · rw [if_pos hneg, Int.ofNat_natAbs_of_nonpos (Int.le_of_lt hneg), Int.neg_neg]
  · rw [if_neg hneg, Int.natAbs_of_nonneg (Int.not_lt.mp hneg)]

theorem ofInt_safe (n : Int) (h : safeInteger n = true) :
    JsNum.ofInt n = JsNum.finite (n * unitsPerOne) :=
  roundDouble_safe n h

/-- Doubles add whole numbers exactly as long as the sum is in the safe range. -/
theorem add_ofInt (a b : Int) (ha : safeInteger a = true) (hb : safeInteger b = true)
    (hab : safeInteger (a + b) = true) :
    JsNum.ofInt a + JsNum.ofInt b = JsNum.ofInt (a + b) := by
  rw [ofInt_safe a ha, ofInt_safe b hb, ofInt_safe (a + b) hab]
  show jsAdd _ _ = _
  rw [jsAdd, ← Int.add_mul]
  exact roundDouble_safe (a + b) hab

/-- The search for the bits to drop has fuel enough: what it returns leaves
at most 53 bits. -/
theorem dropBits_fits (a : Nat) : a / 2 ^ dropBits a a 0 < 2 ^ 53 := by
  have hgen : ∀ (fuel s : Nat), a / 2 ^ (s + fuel) < 2 ^ 53 →
      a / 2 ^ dropBits fuel a s < 2 ^ 53 := by
    intro fuel
    induction fuel with
    | zero =>
        intro s h
        rw [dropBits]
        exact h
    | succ f ih =>
        intro s h
        rw [dropBits]
        by_cases hc : a / 2 ^ s < 2 ^ 53
        · rw [if_pos hc]
          exact hc
        · rw [if_neg hc]
          apply ih
          rw [Nat.add_assoc, Nat.add_comm 1 f]
          exact h
  apply hgen
  rw [Nat.zero_add, Nat.div_eq_of_lt (Nat.lt_two_pow a)]
  exact Nat.two_pow_pos 53

theorem zero_eq_finite : (0 : JsNum) = JsNum.finite 0 := by
  show JsNum.ofInt 0 = JsNum.finite 0
  rw [ofInt_safe 0 (by decide), Int.zero_mul]

theorem readOffset_finite (v : Int) :
    readOffset (some (JsNum.finite v)) = JsNum.finite v := by
  unfold readOffset
  by_cases h : v = 0
  · simp [h]
  · simp [h]

theorem readOffset_ofInt (n : Int) (h : safeInteger n = true) :
    readOffset (some (JsNum.ofInt n)) = JsNum.ofInt n := by
  rw [ofInt_safe n h]
  exact readOffset_finite _

theorem safeSteps_sum : ∀ (ds : List Int) (a : Int), safeInteger a = true →
    safeSteps a ds = true → safeInteger (a + ds.sum) = true := by
  intro ds
  induction ds with
  | nil =>
      intro a ha _
      simpa using ha
  | cons d rest ih =>
      intro a _ hs
      simp only [safeSteps, Bool.and_eq_true] at hs
      have := ih (a + d) hs.1.2 hs.2
      simpa [List.sum_cons, Int.add_assoc] using this

/-- Whole numbers whose running sums stay in the safe range add up exactly. -/
theorem accumulate_whole : ∀ (ds : List Int) (a : Int), safeInteger a = true →
    safeSteps a ds = true →
    accumulate (JsNum.ofInt a) (ds.map JsNum.ofInt) = JsNum.ofInt (a + ds.sum) := by
  intro ds
  induction ds with
  | nil =>
      intro a _ _
      simp [accumulate]
  | cons d rest ih =>
      intro a ha hs
      simp only [safeSteps, Bool.and_eq_true] at hs
      have hstep : accumulate (JsNum.ofInt a) ((d :: rest).map JsNum.ofInt) =
          accumulate (readOffset (some (JsNum.ofInt a + JsNum.ofInt d)))
            (rest.map JsNum.ofInt) := by
        simp only [accumulate, List.map_cons, List.foldl_cons]
      rw [hstep, add_ofInt a d ha hs.1.1 hs.1.2, readOffset_ofInt (a + d) hs.1.2,
        ih (a + d) hs.1.2 hs.2, List.sum_cons, Int.add_assoc]

/-- From a zero offset, whole numbers whose running sums stay in the safe
range, added to a safe whole coordinate with a safe result, give the exact
sum. -/
theorem add_accumulate_whole (x : Int) (ds : List Int) (hx : safeInteger x = true)
    (hs : safeSteps 0 ds = true) (hsum : safeInteger (x + ds.sum) = true) :
    JsNum.ofInt x + accumulate (JsNum.finite 0) (ds.map JsNum.ofInt) =
      JsNum.ofInt (x + ds.sum) := by
  have h0 : JsNum.finite 0 = JsNum.ofInt 0 := by
    rw [ofInt_safe 0 (by decide), Int.zero_mul]
  have hacc := accumulate_whole ds 0 (by decide) hs
  rw [h0, hacc, Int.zero_add]
  have hsafe := safeSteps_sum ds 0 (by decide) hs
  rw [Int.zero_add] at hsafe
  exact add_ofInt x ds.sum hx hsafe hsum

/-! ## Gestures on overlays (C11 - C16) -/

/-- The move events of a drag accumulate in `data-x`, `data-y`; they issue no
request and leave the record, the id and the size of the element alone. -/
theorem dragMoves_spec : ∀ (moves : List DragMove) (st : Stage),
    (dragMoves moves st).requests = st.requests ∧
    (dragMoves moves st).overlay = st.overlay ∧
    (dragMoves moves st).element.overlayId = st.element.overlayId ∧
    (dragMoves moves st).element.width = st.element.width ∧
    (dragMoves moves st).element.height = st.element.height ∧
    readOffset (dragMoves moves st).element.dataX =
      accumulate (readOffset st.element.dataX) (moves.map DragMove.dx) ∧
    readOffset (dragMoves moves st).element.dataY =
      accumulate (readOffset st.element.dataY) (moves.map DragMove.dy) := by
  intro moves
  induction moves with
  | nil =>
      intro st
      simp [dragMoves, accumulate]
  | cons m rest ih =>
      intro st
      have hstep : dragMoves (m :: rest) st = dragMoves rest (dragMove m st) := by
        simp [dragMoves]
      obtain ⟨h1, h2, h3, h4, h5, h6, h7⟩ := ih (dragMove m st)
      rw [hstep]
      refine ⟨h1, h2, h3, h4, h5, ?_, ?_⟩
      · rw [h6]
        rfl
      · rw [h7]
        rfl

/-- The move events of a resize accumulate the movement of the left and of the
top edge in `data-x`, `data-y`; they issue no request and leave the record
and the id alone. -/
theorem resizeMoves_spec : ∀ (moves : List ResizeEvent) (st : Stage),
    (resizeMoves moves st).requests = st.requests ∧
    (resizeMoves moves st).overlay = st.overlay ∧
    (resizeMoves moves st).element.overlayId = st.element.overlayId ∧
    readOffset (resizeMoves moves st).element.dataX =
      accumulate (readOffset st.element.dataX) (moves.map (fun m => m.deltaRect.left)) ∧
    readOffset (resizeMoves moves st).element.dataY =
      accumulate (readOffset st.element.dataY) (moves.map (fun m => m.deltaRect.top)) := by
  intro moves
  induction moves with
  | nil =>
      intro st
      simp [resizeMoves, accumulate]
  | cons m rest ih =>
      intro st
      have hstep : resizeMoves (m :: rest) st = resizeMoves rest (resizeMove m st) := by
        simp [resizeMoves]
      obtain ⟨h1, h2, h3, h4, h5⟩ := ih (resizeMove m st)
      rw [hstep]
      refine ⟨h1, h2, h3, ?_, ?_⟩
      · rw [h4]
        rfl
      · rw [h5]
        rfl

/-- What a drag gesture leaves behind, from any starting offset. -/
theorem dragGesture_spec (moves : List DragMove) (st : Stage) :
    dragGesture moves st =
      { overlay := st.overlay,
        element := { (dragMoves moves st).element with
                       transform := none, dataX := some 0, dataY := some 0 },
        requests := st.requests ++
          [{ id := st.element.overlayId,
             position := some
               { x := st.overlay.position.x +
                   accumulate (readOffset st.element.dataX) (moves.map DragMove.dx),
                 y := st.overlay.position.y +
                   accumulate (readOffset st.element.dataY) (moves.map DragMove.dy) },
             size := none }] } := by
  obtain ⟨h1, h2, h3, _, _, h6, h7⟩ := dragMoves_spec moves st
  simp only [dragGesture, dragEnd, h1, h2, h3, h6, h7]

/-- What a resize gesture leaves behind, from any starting offset. -/
theorem resizeGesture_spec (moves : List ResizeEvent) (last : ResizeEvent) (st : Stage) :
    resizeGesture moves last st =
      { overlay := st.overlay,
        element := { (resizeMoves moves st).element with
                       transform := none, dataX := some 0, dataY := some 0 },
        requests := st.requests ++
          [{ id := st.element.overlayId,
             position := some
               { x := st.overlay.position.x +
                   accumulate (readOffset st.element.dataX)
                     (moves.map (fun m => m.deltaRect.left)),
                 y := st.overlay.position.y +
                   accumulate (readOffset st.element.dataY)
                     (moves.map (fun m => m.deltaRect.top)) },
             size := some { width := last.rect.width, height := last.rect.height } }] } := by
  obtain ⟨h1, h2, h3, h4, h5⟩ := resizeMoves_spec moves st
  simp only [resizeGesture, resizeEnd, h1, h2, h3, h4, h5]

/-- C11, as stated, fails: on the overlay at `x = 9007199254740992` (`2 ^ 53`),
a drag by `dx = 1` commits `x = 9007199254740992` again, not the sum
`9007199254740993`, which is no double: the addition of the end listener
rounds. -/
theorem drag_sum_is_rounded :
    (dragGesture [{ dx := 1, dy := 0 }]
      (Stage.fresh { id := "a", position := { x := 9007199254740992, y := 50 },
                     size := { width := 200, height := 50 }, zIndex := 10 })).requests =
      [{ id := "a", position := some { x := 9007199254740992, y := 50 }, size := none }] ∧
    (9007199254740992 : JsNum) = JsNum.finite (9007199254740992 * unitsPerOne) ∧
    JsNum.finite (9007199254740992 * unitsPerOne) ≠
      JsNum.finite ((9007199254740992 + 1) * unitsPerOne) := by
  decide!

/-- C11, amended: a drag gesture that starts from a zero offset (`data-x`,
`data-y` absent or 0) issues, at its end, one update, without a size, whose
position is the position of the record plus the movement accumulated by the
move events, in double arithmetic.  When the position `(x, y)` and the
movements are whole numbers, and they, the running sums of the movements and
the results stay within `2 ^ 53` in magnitude, that position is exactly
`(x + sum of dx, y + sum of dy)`. -/
theorem drag_commits_sum (moves : List DragMove) (st : Stage) (x y : Int)
    (dxs dys : List Int)
    (hx : readOffset st.element.dataX = JsNum.finite 0)
    (hy : readOffset st.element.dataY = JsNum.finite 0)
    (hpos : st.overlay.position = { x := JsNum.ofInt x, y := JsNum.ofInt y })
    (hdx : moves.map DragMove.dx = dxs.map JsNum.ofInt)
    (hdy : moves.map DragMove.dy = dys.map JsNum.ofInt)
    (sx : safeInteger x = true) (sy : safeInteger y = true)
    (sdx : safeSteps 0 dxs = true) (sdy : safeSteps 0 dys = true)
    (ssx : safeInteger (x + dxs.sum) = true) (ssy : safeInteger (y + dys.sum) = true) :
    (dragGesture moves st).requests =
      st.requests ++
        [{ id := st.element.overlayId,
           position := some { x := JsNum.ofInt (x + dxs.sum),
                              y := JsNum.ofInt (y + dys.sum) },
           size := none }] ∧
    JsNum.ofInt (x + dxs.sum) = JsNum.finite ((x + dxs.sum) * unitsPerOne) ∧
    JsNum.ofInt (y + dys.sum) = JsNum.finite ((y + dys.sum) * unitsPerOne) ∧
    (∀ (any : List DragMove),
      (dragGesture any st).requests =
        st.requests ++
          [{ id := st.element.overlayId,
             position := some
               { x := st.overlay.position.x +
                   accumulate (JsNum.finite 0) (any.map DragMove.dx),
                 y := st.overlay.position.y +
                   accumulate (JsNum.finite 0) (any.map DragMove.dy) },
             size := none }]) := by
  refine ⟨?_, ofInt_safe _ ssx, ofInt_safe _ ssy, fun any => ?_⟩
  · rw [dragGesture_spec, hx, hy, hpos, hdx, hdy]
    simp only [add_accumulate_whole x dxs sx sdx ssx, add_accumulate_whole y dys sy sdy ssy]
  · rw [dragGesture_spec, hx, hy]

/-- Witness of `drag_commits_sum`: the overlay at `(50, 50)` dragged by
`dx = 15`, `dy = -5` commits the position `(65, 45)`. -/
theorem drag_commits_sum_witness :
    (dragGesture [{ dx := 15, dy := -5 }]
      (Stage.fresh { id := "a", position := { x := 50, y := 50 },
                     size := { width := 200, height := 50 }, zIndex := 10 })).requests =
      [{ id := "a", position := some { x := JsNum.ofInt (50 + [15].sum),
                                       y := JsNum.ofInt (50 + [-5].sum) },
         size := none }] ∧
    JsNum.ofInt (50 + [15].sum) = 65 ∧ JsNum.ofInt (50 + [-5].sum) = 45 :=
  ⟨(drag_commits_sum [{ dx := 15, dy := -5 }]
      (Stage.fresh { id := "a", position := { x := 50, y := 50 },
                     size := { width := 200, height := 50 }, zIndex := 10 })
      50 50 [15] [-5] rfl rfl (by decide!) (by decide!) (by decide!) (by decide)
      (by decide) (by decide) (by decide) (by decide) (by decide)).1,
   by decide!, by decide!⟩

/-- C12, as stated, fails: on the overlay at `x = 9007199254740992` (`2 ^ 53`),
a resize whose left edge moved by `1` commits `x = 9007199254740992` again,
not the sum `9007199254740993`, which is no double. -/
theorem resize_sum_is_rounded :
    (resizeGesture
      [{ deltaRect := { left := 1, top := 0, right := 0, bottom := 0 },
         rect := { width := 199, height := 50 } }]
      { deltaRect := { left := 0, top := 0, right := 0, bottom := 0 },
        rect := { width := 199, height := 50 } }
      (Stage.fresh { id := "a", position := { x := 9007199254740992, y := 50 },
                     size := { width := 200, height := 50 }, zIndex := 10 })).requests =
      [{ id := "a", position := some { x := 9007199254740992, y := 50 },
         size := some { width := 199, height := 50 } }] ∧
    (9007199254740992 : JsNum) = JsNum.finite (9007199254740992 * unitsPerOne) ∧
    JsNum.finite (9007199254740992 * unitsPerOne) ≠
      JsNum.finite ((9007199254740992 + 1) * unitsPerOne) := by
  decide!

/-- C12, amended: a resize gesture that starts from a zero offset issues, at
its end, one update whose size is the rectangle of the end event and whose
position is the position of the record plus the movements of the left and of
the top edge accumulated by the move events, in double arithmetic; the right
and bottom edges do not occur in it.  When the position `(x, y)` and these
movements are whole numbers, and they, their running sums and the results
stay within `2 ^ 53` in magnitude, that position is exactly `(x + sum of the
left-edge movements, y + sum of the top-edge movements)`. -/
theorem resize_commits_left_top (moves : List ResizeEvent) (last : ResizeEvent) (st : Stage)
    (x y : Int) (lefts tops : List Int)
    (hx : readOffset st.element.dataX = JsNum.finite 0)
    (hy : readOffset st.element.dataY = JsNum.finite 0)
    (hpos : st.overlay.position = { x := JsNum.ofInt x, y := JsNum.ofInt y })
    (hl : moves.map (fun m => m.deltaRect.left) = lefts.map JsNum.ofInt)
    (ht : moves.map (fun m => m.deltaRect.top) = tops.map JsNum.ofInt)
    (sx : safeInteger x = true) (sy : safeInteger y = true)
    (sl : safeSteps 0 lefts = true) (stp : safeSteps 0 tops = true)
    (ssx : safeInteger (x + lefts.sum) = true) (ssy : safeInteger (y + tops.sum) = true) :
    (resizeGesture moves last st).requests =
      st.requests ++
        [{ id := st.element.overlayId,
           position := some { x := JsNum.ofInt (x + lefts.sum),
                              y := JsNum.ofInt (y + tops.sum) },
           size := some last.rect }] ∧
    JsNum.ofInt (x + lefts.sum) = JsNum.finite ((x + lefts.sum) * unitsPerOne) ∧
    JsNum.ofInt (y + tops.sum) = JsNum.finite ((y + tops.sum) * unitsPerOne) ∧
    (∀ (any : List ResizeEvent) (fin : ResizeEvent),
      (resizeGesture any fin st).requests =
        st.requests ++
          [{ id := st.element.overlayId,
             position := some
               { x := st.overlay.position.x +
                   accumulate (JsNum.finite 0) (any.map (fun m => m.deltaRect.left)),
                 y := st.overlay.position.y +
                   accumulate (JsNum.finite 0) (any.map (fun m => m.deltaRect.top)) },
             size := some fin.rect }]) := by
  refine ⟨?_, ofInt_safe _ ssx, ofInt_safe _ ssy, fun any fin => ?_⟩
  · rw [resizeGesture_spec, hx, hy, hpos, hl, ht]
    simp only [add_accumulate_whole x lefts sx sl ssx, add_accumulate_whole y tops sy stp ssy]
  · rw [resizeGesture_spec, hx, hy]

/-- Witness of `resize_commits_left_top`: on the overlay at `(50, 50)` of size
`200 x 50`, the left edge moved by `-10` and the bottom edge by `+20` commit
the position `(40, 50)` and the size `210 x 70`. -/
theorem resize_commits_left_top_witness :
    (resizeGesture
      [{ deltaRect := { left := -10, top := 0, right := 0, bottom := 0 },
         rect := { width := 210, height := 50 } },
       { deltaRect := { left := 0, top := 0, right := 0, bottom := 20 },
         rect := { width := 210, height := 70 } }]
      { deltaRect := { left := 0, top := 0, right := 0, bottom := 0 },
        rect := { width := 210, height := 70 } }
      (Stage.fresh { id := "a", position := { x := 50, y := 50 },
                     size := { width := 200, height := 50 }, zIndex := 10 })).requests =
      [{ id := "a", position := some { x := JsNum.ofInt (50 + [-10, 0].sum),
                                       y := JsNum.ofInt (50 + [0, 0].sum) },
         size := some { width := 210, height := 70 } }] ∧
    JsNum.ofInt (50 + [-10, 0].sum) = 40 ∧ JsNum.ofInt (50 + [0, 0].sum) = 50 :=
  ⟨(resize_commits_left_top
      [{ deltaRect := { left := -10, top := 0, right := 0, bottom := 0 },
         rect := { width := 210, height := 50 } },
       { deltaRect := { left := 0, top := 0, right := 0, bottom := 20 },
         rect := { width := 210, height := 70 } }]
      { deltaRect := { left := 0, top := 0, right := 0, bottom := 0 },
        rect := { width := 210, height := 70 } }
      (Stage.fresh { id := "a", position := { x := 50, y := 50 },
                     size := { width := 200, height := 50 }, zIndex := 10 })
      50 50 [-10, 0] [0, 0] rfl rfl (by decide!) (by decide!) (by decide!) (by decide)
      (by decide) (by decide) (by decide) (by decide) (by decide)).1,
   by decide!, by decide!⟩

/-- C13, as stated, fails: on the overlay of size `200 x 50`, a resize whose
right edge moved by `-196` ends with a rectangle `4` wide; the committed width
is `4`, where the clamp `max(10, 200 + (-196))` would give `10`. -/
theorem resize_commits_below_ten :
    (resizeGesture
      [{ deltaRect := { left := 0, top := 0, right := -196, bottom := 0 },
         rect := { width := 4, height := 50 } }]
      { deltaRect := { left := 0, top := 0, right := 0, bottom := 0 },
        rect := { width := 4, height := 50 } }
      (Stage.fresh { id := "a", position := { x := 50, y := 50 },
                     size := { width := 200, height := 50 }, zIndex := 10 })).requests =
      [{ id := "a", position := some { x := 50, y := 50 },
         size := some { width := 4, height := 50 } }] ∧
    max (10 : Int) (200 + (-196)) = 10 ∧ (4 : Int) < 10 := by
  decide!

/-- C13, amended: the size committed at the end of a resize gesture is the
width and height of the end event's rectangle as they are; no minimum is
applied, so every rectangle, also one below 10 px, is committed unchanged. -/
theorem resize_commits_rect_unclamped (moves : List ResizeEvent) (last : ResizeEvent)
    (st : Stage) :
    ∃ u : OverlayUpdate,
      (resizeGesture moves last st).requests = st.requests ++ [u] ∧
      u.size = some { width := last.rect.width, height := last.rect.height } := by
  rw [resizeGesture_spec]
  exact ⟨_, rfl, rfl⟩

/-- C14: the end of every gesture, drag or resize, leaves `data-x` and
`data-y` at 0 and the transform empty, whatever the offset was before; so a
gesture that follows commits the position of the record of its closure plus
its own movement only, and nothing of the earlier gesture. -/
theorem gesture_end_resets_offset (first next : Gesture) (st : Stage) :
    (first.run st).element.dataX = some 0 ∧
    (first.run st).element.dataY = some 0 ∧
    (first.run st).element.transform = none ∧
    ∃ u : OverlayUpdate,
      (next.run (first.run st)).requests = (first.run st).requests ++ [u] ∧
      u.position = some { x := st.overlay.position.x + next.offset.x,
                          y := st.overlay.position.y + next.offset.y } := by
  have hreset : (first.run st).element.dataX = some 0 ∧
      (first.run st).element.dataY = some 0 ∧
      (first.run st).element.transform = none ∧ (first.run st).overlay = st.overlay := by
    cases first with
    | drag moves =>
        simp only [Gesture.run]
        rw [dragGesture_spec]
        exact ⟨rfl, rfl, rfl, rfl⟩
    | resize moves last =>
        simp only [Gesture.run]
        rw [resizeGesture_spec]
        exact ⟨rfl, rfl, rfl, rfl⟩
  obtain ⟨hx, hy, ht, ho⟩ := hreset
  have rx : readOffset (first.run st).element.dataX = JsNum.finite 0 := by
    rw [hx, zero_eq_finite]
    exact readOffset_finite 0
  have ry : readOffset (first.run st).element.dataY = JsNum.finite 0 := by
    rw [hy, zero_eq_finite]
    exact readOffset_finite 0
  refine ⟨hx, hy, ht, ?_⟩
  generalize first.run st = mid at rx ry ho
  cases next with
  | drag moves =>
      simp only [Gesture.run, Gesture.offset]
      rw [dragGesture_spec moves mid, rx, ry, ho]
      exact ⟨_, rfl, rfl⟩
  | resize moves last =>
      simp only [Gesture.run, Gesture.offset]
      rw [resizeGesture_spec moves last mid, rx, ry, ho]
      exact ⟨_, rfl, rfl⟩

/-- C15: the move events of a drag gesture issue no update request and leave
the record of the closure, the id and the size of the element as they are:
they write only `data-x`, `data-y` and the transform.  The whole gesture
issues exactly one request, at its end, with a position and without a size,
and leaves the record as it is. -/
theorem drag_moves_only_offset (moves : List DragMove) (st : Stage) :
    (dragMoves moves st).requests = st.requests ∧
    (dragMoves moves st).overlay = st.overlay ∧
    (dragMoves moves st).element.overlayId = st.element.overlayId ∧
    (dragMoves moves st).element.width = st.element.width ∧
    (dragMoves moves st).element.height = st.element.height ∧
    (dragGesture moves st).overlay = st.overlay ∧
    ∃ u : OverlayUpdate,
      (dragGesture moves st).requests = st.requests ++ [u] ∧
      u.position.isSome = true ∧ u.size = none := by
  obtain ⟨h1, h2, h3, h4, h5, _, _⟩ := dragMoves_spec moves st
  refine ⟨h1, h2, h3, h4, h5, ?_, ?_⟩
  · rw [dragGesture_spec]
  · rw [dragGesture_spec]
    exact ⟨_, rfl, rfl, rfl⟩

/-- C16, as stated, fails: a record with `zIndex` 0 is rendered with the
stacking value 10, above a record with `zIndex` 5, although `0 < 5`. -/
theorem zero_zIndex_stacks_above :
    (0 : Int) < 5 ∧
    renderedZIndex { id := "a", position := { x := 0, y := 0 },
                     size := { width := 10, height := 10 }, zIndex := 0 } = 10 ∧
    renderedZIndex { id := "b", position := { x := 0, y := 0 },
                     size := { width := 10, height := 10 }, zIndex := 5 } = 5 ∧
    ¬ (renderedZIndex { id := "a", position := { x := 0, y := 0 },
                        size := { width := 10, height := 10 }, zIndex := 0 } ≤
       renderedZIndex { id := "b", position := { x := 0, y := 0 },
                        size := { width := 10, height := 10 }, zIndex := 5 }) := by
  decide

/-- C16, amended: for records `a`, `b` with `a.zIndex < b.zIndex`, the
stacking value rendered for `a` is not greater than the one rendered for `b`
whenever `a.zIndex` is not 0 (or `b.zIndex` is at least 10): every `zIndex`
other than 0 is rendered as it is, and 0 is rendered as 10. -/
theorem stacking_follows_zIndex (a b : OverlayRecord) (hlt : a.zIndex < b.zIndex)
    (h0 : a.zIndex ≠ 0 ∨ 10 ≤ b.zIndex) :
    renderedZIndex a ≤ renderedZIndex b ∧
    (a.zIndex ≠ 0 → renderedZIndex a = a.zIndex) ∧
    (a.zIndex = 0 → renderedZIndex a = 10) := by
  unfold renderedZIndex
  by_cases ha : a.zIndex = 0 <;> by_cases hb : b.zIndex = 0 <;> simp [ha, hb] <;> omega

/-- Witness of `stacking_follows_zIndex`: the values `-1` and `0`. -/
theorem stacking_follows_zIndex_witness :
    renderedZIndex { id := "a", position := { x := 0, y := 0 },
                     size := { width := 10, height := 10 }, zIndex := -1 } ≤
    renderedZIndex { id := "b", position := { x := 0, y := 0 },
                     size := { width := 10, height := 10 }, zIndex := 0 } :=
  (stacking_follows_zIndex
    { id := "a", position := { x := 0, y := 0 }, size := { width := 10, height := 10 },
      zIndex := -1 }
    { id := "b", position := { x := 0, y := 0 }, size := { width := 10, height := 10 },
      zIndex := 0 }
    (by decide) (Or.inl (by decide))).1

/-! ## Render gate, session errors and manual retry (C17, C18, C19) -/

/-- C17, the code at the failing input: a manifest played through an hls.js
session whose manifest was parsed, then a fatal session error that is neither
a network nor a media error.  The error message is set, yet `videoLoaded` is
still true, so the overlays stay rendered and keep their gesture handling.
The two other places that set an error message, `handleError` and the
`rtsp://` branch, clear `videoLoaded` with it. -/
theorem session_error_keeps_overlays :
    (run ⟨false, true⟩
      [Event.setSrc "http://h/live.m3u8", Event.manifestParsed,
       Event.hlsFailure true HlsErrorType.other "muxError"]
      Player.initial).streamError = some "HLS playback error: muxError" ∧
    overlaysRendered (run ⟨false, true⟩
      [Event.setSrc "http://h/live.m3u8", Event.manifestParsed,
       Event.hlsFailure true HlsErrorType.other "muxError"]
      Player.initial) = true ∧
    gesturesAttached (run ⟨false, true⟩
      [Event.setSrc "http://h/live.m3u8", Event.manifestParsed,
       Event.hlsFailure true HlsErrorType.other "muxError"]
      Player.initial) = true ∧
    (handleError "http://h/live.m3u8" (run ⟨false, true⟩
      [Event.setSrc "http://h/live.m3u8", Event.manifestParsed]
      Player.initial)).videoLoaded = false ∧
    (sourceEffect ⟨false, true⟩ "rtsp://cam/stream1" (run ⟨false, true⟩
      [Event.setSrc "http://h/live.m3u8", Event.manifestParsed]
      Player.initial)).videoLoaded = false := by
  decide

/-- C18: the hls.js error handler, in every state.  A fatal network error
only calls `hls.startLoad()`, a fatal media error only calls
`hls.recoverMediaError()`, and neither touches the error message; any other
fatal error sets the error message and calls no recovery; an error that is
not fatal changes nothing. -/
theorem hlsError_policy (details : String) (s : Player) :
    hlsError true HlsErrorType.network details s =
      { s with hlsStartLoads := s.hlsStartLoads + 1 } ∧
    hlsError true HlsErrorType.media details s =
      { s with hlsRecoveries := s.hlsRecoveries + 1 } ∧
    hlsError true HlsErrorType.other details s =
      { s with streamError := some ("HLS playback error: " ++ details) } ∧
    (∀ type : HlsErrorType, hlsError false type details s = s) ∧
    (hlsError true HlsErrorType.network details s).streamError = s.streamError ∧
    (hlsError true HlsErrorType.media details s).streamError = s.streamError := by
  refine ⟨rfl, rfl, rfl, fun type => ?_, rfl, rfl⟩
  cases type <;> rfl

/-- C19, as stated, fails.  With an hls.js session, after the retries of a
manifest were used up, the retry button keeps the session that exists (one
created, none destroyed) where a fresh bind destroys it and creates a new
one.  And when hls.js was not yet loaded at bind time, the retry button
creates no session where a fresh bind on the now capable browser does. -/
theorem retry_is_not_rebind :
    (step ⟨false, true⟩ Event.retry
      (run ⟨false, true⟩ (Event.setSrc "http://h/live.m3u8" :: List.replicate 6 Event.error)
        Player.initial)).hlsDestroyed = 0 ∧
    (rebind ⟨false, true⟩
      (run ⟨false, true⟩ (Event.setSrc "http://h/live.m3u8" :: List.replicate 6 Event.error)
        Player.initial)).hlsDestroyed = 1 ∧
    (rebind ⟨false, true⟩
      (run ⟨false, true⟩ (Event.setSrc "http://h/live.m3u8" :: List.replicate 6 Event.error)
        Player.initial)).hlsCreated = 2 ∧
    (step ⟨false, true⟩ Event.retry
      (run ⟨false, false⟩ (Event.setSrc "http://h/live.m3u8" :: List.replicate 6 Event.error)
        Player.initial)).hls = none ∧
    (rebind ⟨false, true⟩
      (run ⟨false, false⟩ (Event.setSrc "http://h/live.m3u8" :: List.replicate 6 Event.error)
        Player.initial)).hls = some "http://h/live.m3u8" := by
  decide

/-- C19, amended: while the retry button is shown (an error message is set
and the source is a manifest), a click resets the state to attempt 0, not
loaded, no error, and calls `video.load()` once.  It does not run the bind
again: the session, its creation and destruction counts, the subscribed
handlers, the source of the element and the pending timers stay as they are. -/
theorem retry_click_reloads_only (env : Env) (s : Player)
    (he : s.streamError.isSome = true) (hm : isM3u8 s.src = true) :
    step env Event.retry s =
      { s with streamError := none, videoLoaded := false, retryCount := 0,
               retryDisplay := 0, loadCalls := s.loadCalls + 1 } ∧
    (step env Event.retry s).hls = s.hls ∧
    (step env Event.retry s).hlsCreated = s.hlsCreated ∧
    (step env Event.retry s).hlsDestroyed = s.hlsDestroyed ∧
    (step env Event.retry s).listeners = s.listeners ∧
    (step env Event.retry s).videoSrc = s.videoSrc ∧
    (step env Event.retry s).timers = s.timers := by
  have hstep : step env Event.retry s = retryClick s := by
    simp [step, he, hm]
  rw [hstep]
  exact ⟨rfl, rfl, rfl, rfl, rfl, rfl, rfl⟩

/-- Witness of `retry_click_reloads_only`: the retry button after the retries
of a manifest were used up. -/
theorem retry_click_reloads_only_witness :
    (step ⟨false, true⟩ Event.retry
      (run ⟨false, true⟩ (Event.setSrc "http://h/live.m3u8" :: List.replicate 6 Event.error)
        Player.initial)).hls =
    (run ⟨false, true⟩ (Event.setSrc "http://h/live.m3u8" :: List.replicate 6 Event.error)
        Player.initial).hls :=
  (retry_click_reloads_only ⟨false, true⟩
    (run ⟨false, true⟩ (Event.setSrc "http://h/live.m3u8" :: List.replicate 6 Event.error)
      Player.initial)
    (by decide) (by decide)).2.1

/-! ## One source bound at a time (C20) -/

theorem sameBinding_refl (s : Player) : sameBinding s s :=
  ⟨rfl, rfl, rfl, rfl, rfl⟩

theorem sameBinding_trans {s t u : Player} (h1 : sameBinding s t) (h2 : sameBinding t u) :
    sameBinding s u := by
  obtain ⟨a1, a2, a3, a4, a5⟩ := h1
  obtain ⟨b1, b2, b3, b4, b5⟩ := h2
  exact ⟨b1.trans a1, b2.trans a2, b3.trans a3, b4.trans a4, b5.trans a5⟩

/-- The binding discipline only looks at the binding. -/
theorem wellBound_of_sameBinding {s t : Player} (h : sameBinding s t) (hw : wellBound s) :
    wellBound t := by
  obtain ⟨a1, a2, a3, a4, a5⟩ := h
  unfold wellBound aliveSessions at *
  rw [a1, a2, a3, a4, a5]
  exact hw

theorem handleError_sameBinding (src : String) (s : Player) :
    sameBinding s (handleError src s) := by
  unfold handleError sameBinding
  by_cases hm : isM3u8 src = true <;> by_cases hlt : s.retryCount < maxRetries <;>
    simp [hm, hlt]

/-- A media-element signal leaves the binding alone when each handler does. -/
theorem dispatch_sameBinding (h : String → Player → Player)
    (hh : ∀ src st, sameBinding st (h src st)) (s : Player) :
    sameBinding s (dispatch h s) := by
  unfold dispatch
  generalize s.listeners = l
  induction l generalizing s with
  | nil => exact sameBinding_refl s
  | cons a rest ih =>
      simp only [List.foldl_cons]
      exact sameBinding_trans (hh a s) (ih (h a s))

/-- The cleanup of the bound source, on a state that follows the discipline
for that source: no closure stays subscribed, no session stays alive, and
every session created has been destroyed, the living one by this cleanup. -/
theorem sourceCleanup_releases (old : String) (t : Player)
    (hl : t.listeners = [] ∨
      (t.listeners = [old] ∧ old ≠ "" ∧ sourceKind old ≠ SourceKind.UnsupportedProtocol))
    (hh : t.hls.isSome = true → old ≠ "" ∧ sourceKind old ≠ SourceKind.UnsupportedProtocol)
    (hc : t.hlsCreated = t.hlsDestroyed + aliveSessions t) :
    (sourceCleanup old t).listeners = [] ∧ (sourceCleanup old t).hls = none ∧
    (sourceCleanup old t).hlsCreated = (sourceCleanup old t).hlsDestroyed ∧
    (sourceCleanup old t).hlsDestroyed = t.hlsDestroyed + aliveSessions t ∧
    (sourceCleanup old t).src = t.src := by
  have hfree : (old = "" ∨ sourceKind old = SourceKind.UnsupportedProtocol) →
      t.listeners = [] ∧ t.hls = none := by
    intro hbad
    constructor
    · rcases hl with h | ⟨_, h2, h3⟩
      · exact h
      · rcases hbad with hb | hb
        · exact absurd hb h2
        · exact absurd hb h3
    · cases hs : t.hls with
      | none => rfl
      | some v =>
          have := hh (by simp [hs])
          rcases hbad with hb | hb
          · exact absurd hb this.1
          · exact absurd hb this.2
  unfold sourceCleanup
  by_cases he : old = ""
  · obtain ⟨f1, f2⟩ := hfree (Or.inl he)
    have ha : aliveSessions t = 0 := by simp [aliveSessions, f2]
    simp only [he, if_true]
    exact ⟨f1, f2, by rw [hc, ha]; rfl, by rw [ha]; rfl, trivial⟩
  · simp only [he, if_false]
    by_cases hk : sourceKind old = SourceKind.UnsupportedProtocol
    · obtain ⟨f1, f2⟩ := hfree (Or.inr hk)
      have ha : aliveSessions t = 0 := by simp [aliveSessions, f2]
      simp only [hk]
      exact ⟨f1, f2, by rw [hc, ha]; rfl, by rw [ha]; rfl, trivial⟩
    · have hlist : t.listeners.erase old = [] := by
        rcases hl with h | ⟨h, _, _⟩ <;> simp [h]
      have hgoal : (destroyHls { t with listeners := t.listeners.erase old }).listeners = [] ∧
          (destroyHls { t with listeners := t.listeners.erase old }).hls = none ∧
          (destroyHls { t with listeners := t.listeners.erase old }).hlsCreated =
            (destroyHls { t with listeners := t.listeners.erase old }).hlsDestroyed ∧
          (destroyHls { t with listeners := t.listeners.erase old }).hlsDestroyed =
            t.hlsDestroyed + aliveSessions t ∧
          (destroyHls { t with listeners := t.listeners.erase old }).src = t.src := by
        unfold destroyHls
        cases hs : t.hls <;> simp [hs, aliveSessions, hlist] at hc ⊢ <;> omega
      cases hkind : sourceKind old with
      | AdaptiveManifest => simpa [hkind] using hgoal
      | UnsupportedProtocol => exact absurd hkind hk
      | NativeFile => simpa [hkind] using hgoal

/-- The effect of a source, run on a state that the cleanup has released,
follows the discipline for the new source. -/
theorem sourceEffect_wellBound (env : Env) (new : String) (t : Player)
    (hl : t.listeners = []) (hh : t.hls = none) (hc : t.hlsCreated = t.hlsDestroyed)
    (hs : t.src = new) : wellBound (sourceEffect env new t) := by
  unfold sourceEffect
  by_cases he : new = ""
  · simp only [he, if_true]
    exact ⟨Or.inl hl, by simp [hh], by simp [aliveSessions, hh, hc]⟩
  · simp only [he, if_false]
    simp only [destroyHls, hh]
    cases hk : sourceKind new with
    | AdaptiveManifest =>
        cases hn : env.nativeHls <;> cases hj : env.hlsJs <;>
          simp [wellBound, subscribe, aliveSessions, hl, hh, hc, hs, he, hk]
    | UnsupportedProtocol =>
        simp [wellBound, aliveSessions, hl, hh, hc]
    | NativeFile =>
        simp [wellBound, subscribe, aliveSessions, hl, hh, hc, hs, he, hk]

/-- Every event keeps the binding discipline, in every browser. -/
theorem step_wellBound (env : Env) (e : Event) (s : Player) (hw : wellBound s) :
    wellBound (step env e s) := by
  cases e with
  | setSrc new =>
      simp only [step]
      by_cases hn : new = s.src
      · simp only [hn, if_true]
        exact hw
      · simp only [hn, if_false]
        obtain ⟨w1, w2, w3⟩ := hw
        obtain ⟨c1, c2, c3, _, c5⟩ :=
          sourceCleanup_releases s.src { s with src := new } w1 w2 w3
        exact sourceEffect_wellBound env new _ c1 c2 c3 c5
  | unmount =>
      simp only [step]
      obtain ⟨w1, w2, w3⟩ := hw
      obtain ⟨c1, c2, c3, _, _⟩ := sourceCleanup_releases s.src s w1 w2 w3
      exact ⟨Or.inl c1, by simp [c2], by simp [aliveSessions, c2, c3]⟩
  | loadedmetadata w h =>
      simp only [step]
      exact wellBound_of_sameBinding
        (dispatch_sameBinding (fun _ => handleLoadedMetadata w h) (fun _ _ => ⟨rfl, rfl, rfl, rfl, rfl⟩) s) hw
  | canplay =>
      simp only [step]
      exact wellBound_of_sameBinding
        (dispatch_sameBinding (fun _ => handleCanPlay) (fun _ _ => ⟨rfl, rfl, rfl, rfl, rfl⟩) s) hw
  | error =>
      simp only [step]
      exact wellBound_of_sameBinding
        (dispatch_sameBinding handleError handleError_sameBinding s) hw
  | play =>
      simp only [step]
      exact wellBound_of_sameBinding
        (dispatch_sameBinding (fun _ => handlePlay) (fun _ _ => ⟨rfl, rfl, rfl, rfl, rfl⟩) s) hw
  | pause =>
      simp only [step]
      exact wellBound_of_sameBinding
        (dispatch_sameBinding (fun _ => handlePause) (fun _ _ => ⟨rfl, rfl, rfl, rfl, rfl⟩) s) hw
  | loadstart => exact hw
  | waiting => exact hw
  | playing =>
      simp only [step]
      exact wellBound_of_sameBinding
        (dispatch_sameBinding (fun _ => handlePlay) (fun _ _ => ⟨rfl, rfl, rfl, rfl, rfl⟩) s) hw
  | timer i =>
      refine wellBound_of_sameBinding ?_ hw
      simp only [step, fireTimer, timerCallback, sameBinding]
      by_cases hi : i < s.timers.length <;> by_cases hc : s.retryCount ≤ maxRetries <;>
        simp [hi, hc]
  | manifestParsed =>
      refine wellBound_of_sameBinding ?_ hw
      simp only [step, hlsManifestParsed, sameBinding]
      cases hs : s.hls <;> simp [hs]
  | hlsFailure fatal type details =>
      refine wellBound_of_sameBinding ?_ hw
      simp only [step, hlsError, sameBinding]
      cases hs : s.hls <;> cases fatal <;> cases type <;> simp [hs]
  | retry =>
      refine wellBound_of_sameBinding ?_ hw
      simp only [step, retryClick, sameBinding]
      cases (s.streamError.isSome && isM3u8 s.src) <;> simp

/-- Every state reached from the initial player follows the discipline. -/
theorem runIn_wellBound : ∀ (evs : List (Env × Event)) (s : Player), wellBound s →
    wellBound (runIn evs s) := by
  intro evs
  induction evs with
  | nil =>
      intro s hw
      exact hw
  | cons p rest ih =>
      intro s hw
      have hrun : runIn (p :: rest) s = runIn rest (step p.1 p.2 s) := by
        simp [runIn]
      rw [hrun]
      exact ih _ (step_wellBound p.1 p.2 s hw)

theorem initial_wellBound : wellBound Player.initial :=
  ⟨Or.inl rfl, by decide, by decide⟩

/-- C20: in every state reached from the initial player by any sequence of
source changes, teardowns and other events, in any browser, at most one
handler closure is subscribed on the media element and at most one session is
alive, with every other session ever created destroyed.  The unbind of such a
state leaves no handler subscribed and no session alive, and destroys the
session exactly once when there is one (and nothing when there is none), so
that every session created has then been destroyed. -/
theorem one_source_bound (evs : List (Env × Event)) :
    (runIn evs Player.initial).listeners.length ≤ 1 ∧
    aliveSessions (runIn evs Player.initial) ≤ 1 ∧
    (runIn evs Player.initial).hlsCreated =
      (runIn evs Player.initial).hlsDestroyed + aliveSessions (runIn evs Player.initial) ∧
    (sourceCleanup (runIn evs Player.initial).src (runIn evs Player.initial)).listeners = [] ∧
    (sourceCleanup (runIn evs Player.initial).src (runIn evs Player.initial)).hls = none ∧
    (sourceCleanup (runIn evs Player.initial).src (runIn evs Player.initial)).hlsDestroyed =
      (runIn evs Player.initial).hlsDestroyed + aliveSessions (runIn evs Player.initial) ∧
    (sourceCleanup (runIn evs Player.initial).src (runIn evs Player.initial)).hlsCreated =
      (sourceCleanup (runIn evs Player.initial).src
        (runIn evs Player.initial)).hlsDestroyed := by
  obtain ⟨w1, w2, w3⟩ := runIn_wellBound evs Player.initial initial_wellBound
  obtain ⟨c1, c2, c3, c4, _⟩ :=
    sourceCleanup_releases (runIn evs Player.initial).src (runIn evs Player.initial) w1 w2 w3
  refine ⟨?_, ?_, w3, c1, c2, c4, c3⟩
  · rcases w1 with h | ⟨h, _, _⟩ <;> simp [h]
  · unfold aliveSessions
    split <;> decide

/-! ## The overlay store and what is drawn (C21, C23) -/

/-- C21: when the store's update fails, `updateOverlay` still ends fulfilled
(nothing is raised to the gesture listener), and all it does is send the
request and write one line to the console: the overlay list, the selection
and the connection and loading flags are what they were.  `updateOverlay`
ends fulfilled whatever the store answers, and an update that follows a
failed one is handled as any other: when it and its reload succeed, the list
is the one the store returned. -/
theorem failed_update_is_only_logged (u : OverlayUpdate) (e : String)
    (get : Except String (List OverlayRecord)) (h : Host) :
    updateOverlay u (Except.error e) get h =
      (Settled.fulfilled,
        { h with puts := h.puts ++ [u],
                 log := h.log ++ ["Failed to update overlay: " ++ e] }) ∧
    (handleOverlayUpdate u (Except.error e) get h).overlays = h.overlays ∧
    (handleOverlayUpdate u (Except.error e) get h).selectedOverlay = h.selectedOverlay ∧
    (handleOverlayUpdate u (Except.error e) get h).isConnected = h.isConnected ∧
    (handleOverlayUpdate u (Except.error e) get h).loading = h.loading ∧
    (∀ (put : Except String Unit) (answer : Except String (List OverlayRecord)),
      (updateOverlay u put answer h).1 = Settled.fulfilled) ∧
    (∀ (next : OverlayUpdate) (data : List OverlayRecord),
      (handleOverlayUpdate next (Except.ok ()) (Except.ok data)
        (handleOverlayUpdate u (Except.error e) get h)).overlays = data) := by
  refine ⟨rfl, rfl, rfl, rfl, rfl, fun put answer => ?_, fun next data => rfl⟩
  cases put with
  | error e1 => rfl
  | ok v => cases answer <;> rfl

/-- C23, as stated, fails: the overlay at `(50, 50)` dragged by `dx = 15`,
`dy = -5` commits `(65, 45)`, and right after the end listener has returned it
is drawn at `(50, 50)`: the transform was emptied and the record of the last
render is the old one. -/
theorem drag_end_draws_old_position :
    (dragGesture [{ dx := 15, dy := -5 }]
      (Stage.fresh { id := "a", position := { x := 50, y := 50 },
                     size := { width := 200, height := 50 }, zIndex := 10 })).requests =
      [{ id := "a", position := some { x := 65, y := 45 }, size := none }] ∧
    renderedPosition (dragGesture [{ dx := 15, dy := -5 }]
      (Stage.fresh { id := "a", position := { x := 50, y := 50 },
                     size := { width := 200, height := 50 }, zIndex := 10 })) =
      { x := 50, y := 50 } := by
  decide!

/-- C23, amended: the end listener of a gesture does not wait for the store,
and it empties the transform; right after it has returned, the overlay is
drawn at the position of the record of the last render, which the gesture
did not change, and with the size the move events left on the element.  The
overlay list of the host, from which the next render takes the record,
changes only when the store's update and the reload after it both succeed. -/
theorem gesture_end_draws_record_position (g : Gesture) (moves : List ResizeEvent)
    (last : ResizeEvent) (u : OverlayUpdate) (put : Except String Unit)
    (get : Except String (List OverlayRecord)) (st : Stage) (h : Host) :
    renderedPosition (g.run st) = st.overlay.position ∧
    (g.run st).overlay = st.overlay ∧
    renderedSize (resizeGesture moves last st) = renderedSize (resizeMoves moves st) ∧
    (handleOverlayUpdate u put get h).overlays =
      (match put, get with
       | Except.ok _, Except.ok data => data
       | _, _ => h.overlays) := by
  refine ⟨?_, ?_, ?_, ?_⟩
  · cases g with
    | drag ms =>
        simp only [Gesture.run]
        rw [dragGesture_spec]
        rfl
    | resize ms l =>
        simp only [Gesture.run]
        rw [resizeGesture_spec]
        rfl
  · cases g with
    | drag ms =>
        simp only [Gesture.run]
        rw [dragGesture_spec]
    | resize ms l =>
        simp only [Gesture.run]
        rw [resizeGesture_spec]
  · rw [resizeGesture_spec]
    rfl
  · cases put with
    | error e => rfl
    | ok v => cases get <;> rfl

/-! ## The texts of the overlays (C25) -/

/-- C25, the code at the failing input: `http://h/play?u=rtsp://cam/1`
contains `rtsp://` without starting with it.  The bind step takes it for a
native file and assigns it to the media element with no error, while the
loading overlay and the error overlay take it for a camera stream, and the
error handler, like the bind step, reports a file that failed to load. -/
theorem render_kind_differs_from_bind_kind :
    sourceKind "http://h/play?u=rtsp://cam/1" = SourceKind.NativeFile ∧
    renderKind "http://h/play?u=rtsp://cam/1" = SourceKind.UnsupportedProtocol ∧
    loadingText "http://h/play?u=rtsp://cam/1" = "Converting RTSP stream..." ∧
    errorHint "http://h/play?u=rtsp://cam/1" =
      "RTSP streams need to be converted to HLS format first" ∧
    (sourceEffect ⟨false, true⟩ "http://h/play?u=rtsp://cam/1" Player.initial).videoSrc =
      some "http://h/play?u=rtsp://cam/1" ∧
    (sourceEffect ⟨false, true⟩ "http://h/play?u=rtsp://cam/1" Player.initial).streamError =
      none ∧
    (handleError "http://h/play?u=rtsp://cam/1"
      (sourceEffect ⟨false, true⟩ "http://h/play?u=rtsp://cam/1"
        Player.initial)).streamError = some loadFailedMessage := by
  decide

/-! ## The retry counter stays in range (C24) -/

/-- A media-element signal keeps what each handler keeps. -/
theorem dispatch_preserves (P : Player → Prop) (h : String → Player → Player)
    (hh : ∀ src st, P st → P (h src st)) (s : Player) (hp : P s) : P (dispatch h s) := by
  unfold dispatch
  generalize s.listeners = l
  induction l generalizing s with
  | nil => exact hp
  | cons a rest ih =>
      simp only [List.foldl_cons]
      exact ih (h a s) (hh a s hp)

theorem handleError_retryInRange (src : String) (s : Player) (hp : retryInRange s) :
    retryInRange (handleError src s) := by
  obtain ⟨h1, h2⟩ := hp
  unfold handleError retryInRange
  by_cases hm : isM3u8 src = true <;> by_cases hlt : s.retryCount < maxRetries <;>
    simp [hm, hlt, h1, h2]
  exact hlt

theorem sourceCleanup_retryInRange (src : String) (s : Player) (hp : retryInRange s) :
    retryInRange (sourceCleanup src s) := by
  unfold sourceCleanup retryInRange
  by_cases he : src = ""
  · simpa [he] using hp
  · simp only [he, if_false]
    cases sourceKind src <;>
      simp only [(destroyHls_fields _).2.1, (destroyHls_fields _).2.2.1] <;> exact hp

theorem sourceEffect_retryInRange (env : Env) (src : String) (s : Player)
    (hp : retryInRange s) : retryInRange (sourceEffect env src s) := by
  by_cases he : src = ""
  · simpa [sourceEffect, he] using hp
  · obtain ⟨h1, h2⟩ := sourceEffect_reset env src s he
    unfold retryInRange
    rw [h1, h2]
    exact ⟨Nat.zero_le _, rfl⟩

/-- Every event keeps the counter in range and the displayed number equal to
it, in every browser. -/
theorem step_retryInRange (env : Env) (e : Event) (s : Player) (hp : retryInRange s) :
    retryInRange (step env e s) := by
  have hzero : ∀ t : Player, t.retryCount = 0 → t.retryDisplay = 0 → retryInRange t := by
    intro t h1 h2
    unfold retryInRange
    rw [h1, h2]
    exact ⟨Nat.zero_le _, rfl⟩
  cases e with
  | setSrc new =>
      simp only [step]
      by_cases hn : new = s.src
      · simp only [hn, if_true]
        exact hp
      · simp only [hn, if_false]
        exact sourceEffect_retryInRange env new _ (sourceCleanup_retryInRange s.src _ hp)
  | unmount =>
      simp only [step]
      exact sourceCleanup_retryInRange s.src s hp
  | loadedmetadata w h =>
      simp only [step]
      exact dispatch_preserves retryInRange (fun _ => handleLoadedMetadata w h)
        (fun _ st _ => hzero _ rfl rfl) s hp
  | canplay =>
      simp only [step]
      exact dispatch_preserves retryInRange (fun _ => handleCanPlay)
        (fun _ st _ => hzero _ rfl rfl) s hp
  | error =>
      simp only [step]
      exact dispatch_preserves retryInRange handleError handleError_retryInRange s hp
  | play =>
      simp only [step]
      exact dispatch_preserves retryInRange (fun _ => handlePlay) (fun _ _ hq => hq) s hp
  | pause =>
      simp only [step]
      exact dispatch_preserves retryInRange (fun _ => handlePause) (fun _ _ hq => hq) s hp
  | loadstart => exact hp
  | waiting => exact hp
  | playing =>
      simp only [step]
      exact dispatch_preserves retryInRange (fun _ => handlePlay) (fun _ _ hq => hq) s hp
  | timer i =>
      obtain ⟨h1, h2⟩ := hp
      simp only [step, fireTimer, timerCallback, retryInRange]
      by_cases hi : i < s.timers.length <;> simp [hi, h1, h2]
  | manifestParsed =>
      obtain ⟨h1, h2⟩ := hp
      simp only [step, hlsManifestParsed, retryInRange]
      cases hs : s.hls <;> simp [hs, h1, h2]
  | hlsFailure fatal type details =>
      obtain ⟨h1, h2⟩ := hp
      simp only [step, hlsError, retryInRange]
      cases hs : s.hls <;> cases fatal <;> cases type <;> simp [hs, h1, h2]
  | retry =>
      simp only [step]
      cases (s.streamError.isSome && isM3u8 s.src)
      · exact hp
      · exact hzero _ rfl rfl

/-- Every state reached from a state in range is in range. -/
theorem runIn_retryInRange : ∀ (evs : List (Env × Event)) (s : Player), retryInRange s →
    retryInRange (runIn evs s) := by
  intro evs
  induction evs with
  | nil =>
      intro s hp
      exact hp
  | cons p rest ih =>
      intro s hp
      have hrun : runIn (p :: rest) s = runIn rest (step p.1 p.2 s) := by
        simp [runIn]
      rw [hrun]
      exact ih _ (step_retryInRange p.1 p.2 s hp)

/-- C24: in every state reached from the initial player by any sequence of
events (binds, errors, readiness signals, manual retries, timer firings and
all others), in any browser, the retry counter is at most 5 and the
displayed retry number equals it.  So the guard of the scheduled callback
always holds: the callback always calls `video.load()`, and every pending
timer that fires reloads. -/
theorem retry_counter_in_range (evs : List (Env × Event)) :
    (runIn evs Player.initial).retryCount ≤ 5 ∧
    (runIn evs Player.initial).retryDisplay = (runIn evs Player.initial).retryCount ∧
    timerCallback (runIn evs Player.initial) =
      { (runIn evs Player.initial) with
          loadCalls := (runIn evs Player.initial).loadCalls + 1 } ∧
    (∀ i : Nat, i < (runIn evs Player.initial).timers.length →
      (fireTimer i (runIn evs Player.initial)).loadCalls =
        (runIn evs Player.initial).loadCalls + 1) := by
  have hinit : retryInRange Player.initial := ⟨by decide, rfl⟩
  obtain ⟨h1, h2⟩ := runIn_retryInRange evs Player.initial hinit
  refine ⟨h1, h2, ?_, fun i hi => ?_⟩
  · simp [timerCallback, h1]
  · rw [(fireTimer_loadCalls i _ hi).1]
    simp [h1]

end VideoPlayer
